import Mathlib

/-!
Verification of the booking/schedule core of the find-your-coach backend.

The definitions below are a shallow embedding of the TypeScript services:
* `BookingService.*` embeds `src/app/modules/Booking/Booking.service.ts`
  (`createIntoDb`, `cancelBooking`, `finishBooking`, `requestReschedule`,
  `respondToReschedule`).
* `ScheduleService.*` embeds the Schedule service (`createIntoDb` slot
  generation loop, `toggleSlotStatus`, the `addNewSlot` overlap check).

Timestamps are modelled as natural numbers counting minutes since an epoch;
`JS Date.setHours(0,0,0,0)` (truncation to the calendar day) becomes
`dayStart`, and the 24-hour window `[day, day + 24h)` used by the
double-booking query becomes `[dayStart d, dayStart d + minutesPerDay)`.
Prisma rows become structures, tables become lists, `findUnique`/`findFirst`
become `List.find?`, and `update where id` becomes a `List.map` that rewrites
the matching row.  Every `throw new AppError(...)` site is mapped to its own
error constructor so the theorems can name the exact failure.
-/

/-- Slot status enum from the Prisma schema (`SlotStatus`). -/
inductive SlotStatus where
  | ACTIVE
  | INACTIVE
deriving DecidableEq, Repr

/-- Booking status enum from the Prisma schema (`BookingStatus`). -/
inductive BookingStatus where
  | CONFIRMED
  | CANCELLED
  | FINISHED
  | RESCHEDULE_REQUEST
  | RESCHEDULED_ACCEPTED
  | RESCHEDULED_CANCELED
deriving DecidableEq, Repr

/-- User role enum (`UserRoleEnum`). -/
inductive UserRole where
  | ATHLETE
  | COACH
  | ADMIN
deriving DecidableEq, Repr

/-- Minutes in a calendar day; the JS code uses `24 * 60 * 60 * 1000` ms. -/
def minutesPerDay : Nat := 1440

/-- `new Date(t).setHours(0,0,0,0)`: truncate a timestamp to its day start. -/
def dayStart (t : Nat) : Nat := t - t % minutesPerDay

/-- `date.getHours()/getMinutes()` combined: the time-of-day of a timestamp. -/
def timeOfDay (t : Nat) : Nat := t % minutesPerDay

/-- Athlete row (only the fields the booking core reads). -/
structure Athlete where
  id : Nat
  email : String
deriving DecidableEq, Repr

/-- Coach row (only the fields the booking core reads). -/
structure Coach where
  id : Nat
  email : String
deriving DecidableEq, Repr

/-- CoachAvailability row: one coach's working window on one date. -/
structure CoachAvailability where
  id : Nat
  coachId : Nat
  slotDate : Nat
deriving DecidableEq, Repr

/-- TimeSlot row. -/
structure TimeSlot where
  id : Nat
  availabilityId : Nat
  startTime : Nat
  endTime : Nat
  isBooked : Bool
  status : SlotStatus
deriving DecidableEq, Repr

/-- Booking row. -/
structure Booking where
  id : Nat
  athleteId : Nat
  coachId : Nat
  timeSlotId : Option Nat
  bookingDate : Nat
  status : BookingStatus
  rescheduleFromId : Option Nat
  notes : String
deriving DecidableEq, Repr

/-- The database state the two services read and write.  `nextBookingId` is
the id the next `booking.create` will assign (a modelling stand-in for the
id generator). -/
structure DB where
  athletes : List Athlete
  coaches : List Coach
  availabilities : List CoachAvailability
  timeSlots : List TimeSlot
  bookings : List Booking
  nextBookingId : Nat
deriving DecidableEq, Repr

/-- `status: ∈ [CONFIRMED, RESCHEDULE_REQUEST, RESCHEDULED_ACCEPTED]`,
the "active" status filter of the double-booking queries. -/
def isActiveStatus : BookingStatus → Bool
  | .CONFIRMED => true
  | .RESCHEDULE_REQUEST => true
  | .RESCHEDULED_ACCEPTED => true
  | _ => false

/-- One error constructor per `throw` site of the Booking service, tagged by
the `httpStatus` code the source attaches to it. -/
inductive BookingError where
  | athleteNotFound        -- 404 in createIntoDb
  | timeSlotNotFound       -- 404 in createIntoDb
  | availabilityMissing    -- modelling artifact: the `include availability` join
  | slotWrongCoach         -- 400 in createIntoDb
  | slotNotActive          -- 400 in createIntoDb
  | dateMismatch           -- 400 in createIntoDb
  | pastDate               -- 400 in createIntoDb
  | slotAlreadyBooked      -- 409 CONFLICT in createIntoDb
  | coachNotFound          -- 404
  | userNotFound           -- 404 in cancel / reschedule paths
  | bookingNotFound        -- 404 in cancelBooking
  | notAuthorizedCancel    -- 403 in cancelBooking
  | alreadyCancelled       -- 400 in cancelBooking
  | cannotCancelFinished   -- 400 in cancelBooking
  | onlyCoachCanFinish     -- 403 in finishBooking
  | notAuthorizedFinish    -- 403 in finishBooking
  | alreadyFinished        -- 400 in finishBooking
  | cannotFinishCancelled  -- 400 in finishBooking
  | cannotFinishFuture     -- 400 in finishBooking
  | originalBookingNotFound  -- 404 in requestReschedule
  | notAuthorizedReschedule  -- 403 in requestReschedule
  | pendingRescheduleExists  -- 400 in requestReschedule
  | newTimeSlotNotFound      -- 404 in requestReschedule
  | newSlotWrongCoach        -- 400 in requestReschedule
  | newSlotDateMismatch      -- 400 in requestReschedule
  | newSlotAlreadyBooked     -- 400 in requestReschedule
  | rescheduleRequestNotFound  -- 404 in respondToReschedule
  | notPendingRequest          -- 400 in respondToReschedule
  | notAuthorizedRespond       -- 403 in respondToReschedule
  | originalNotFound           -- 400 in respondToReschedule
deriving DecidableEq, Repr

/-- The `httpStatus` code attached to each `AppError` in the source. -/
def BookingError.httpStatusCode : BookingError → Nat
  | .athleteNotFound => 404
  | .timeSlotNotFound => 404
  | .availabilityMissing => 404
  | .slotWrongCoach => 400
  | .slotNotActive => 400
  | .dateMismatch => 400
  | .pastDate => 400
  | .slotAlreadyBooked => 409
  | .coachNotFound => 404
  | .userNotFound => 404
  | .bookingNotFound => 404
  | .notAuthorizedCancel => 403
  | .alreadyCancelled => 400
  | .cannotCancelFinished => 400
  | .onlyCoachCanFinish => 403
  | .notAuthorizedFinish => 403
  | .alreadyFinished => 400
  | .cannotFinishCancelled => 400
  | .cannotFinishFuture => 400
  | .originalBookingNotFound => 404
  | .notAuthorizedReschedule => 403
  | .pendingRescheduleExists => 400
  | .newTimeSlotNotFound => 404
  | .newSlotWrongCoach => 400
  | .newSlotDateMismatch => 400
  | .newSlotAlreadyBooked => 400
  | .rescheduleRequestNotFound => 404
  | .notPendingRequest => 400
  | .notAuthorizedRespond => 403
  | .originalNotFound => 400

/-- One error constructor per `throw new Error(...)` site of the Schedule
service (which throws untyped `Error`s distinguished only by message). -/
inductive ScheduleError where
  | coachNotFound   -- "Coach not found"
  | slotNotFound    -- "Slot not found"
  | availabilityMissing  -- modelling artifact: the `include availability` join
  | notYourSlot     -- the unauthorized message (spec taxonomy: Forbidden)
  | bookedSlot      -- the cannot-deactivate message (spec: InvalidOperation)
deriving DecidableEq, Repr

namespace ScheduleService

/-- `const intervalTime = 60` in `ScheduleServices.createIntoDb`. -/
def intervalTime : Nat := 60

/-- The slot-generation `while` loop of `ScheduleServices.createIntoDb`:
starting at `cur`, while `cur < endT`, emit `(cur, cur + 60)` unless the
slot end would exceed `endT` (then `break`), and advance by 60 minutes. -/
def generateSlotsAux (endT : Nat) (cur : Nat) : List (Nat × Nat) :=
  if cur < endT then
    if cur + intervalTime ≤ endT then
      (cur, cur + intervalTime) :: generateSlotsAux endT (cur + intervalTime)
    else []
  else []
termination_by endT - cur
decreasing_by simp [intervalTime]; omega

/-- The list of `(startTime, endTime)` pairs the slot generator inserts for
the window `[startT, endT)`. -/
def createScheduleSlots (startT endT : Nat) : List (Nat × Nat) :=
  generateSlotsAux endT startT

/-- The overlap test of `ScheduleServices.addNewSlot`: the three OR'd cases
exactly as written in the source. -/
def hasConflict (candidateStart candidateEnd existStart existEnd : Nat) : Bool :=
  (decide (existStart ≤ candidateStart) && decide (candidateStart < existEnd)) ||
  (decide (existStart < candidateEnd) && decide (candidateEnd ≤ existEnd)) ||
  (decide (candidateStart ≤ existStart) && decide (existEnd ≤ candidateEnd))

/-- `ScheduleServices.toggleSlotStatus`: authorize the coach, refuse to
deactivate a booked active slot, otherwise flip ACTIVE/INACTIVE. -/
def toggleSlotStatus (db : DB) (coachEmail : String) (slotId : Nat) :
    Except ScheduleError (DB × TimeSlot) :=
  match db.coaches.find? (fun c => decide (c.email = coachEmail)) with
  | none => .error .coachNotFound
  | some coach =>
    match db.timeSlots.find? (fun s => decide (s.id = slotId)) with
    | none => .error .slotNotFound
    | some slot =>
      match db.availabilities.find? (fun a => decide (a.id = slot.availabilityId)) with
      | none => .error .availabilityMissing
      | some avail =>
        if avail.coachId ≠ coach.id then .error .notYourSlot
        else if slot.isBooked && decide (slot.status = SlotStatus.ACTIVE) then
          .error .bookedSlot
        else
          let newStatus := if slot.status = SlotStatus.ACTIVE then
            SlotStatus.INACTIVE else SlotStatus.ACTIVE
          .ok ({ db with
                  timeSlots := db.timeSlots.map fun s =>
                    if s.id = slotId then { s with status := newStatus } else s },
               { slot with status := newStatus })

end ScheduleService

namespace BookingService

/-- The role-directed user lookup shared by `cancelBooking`,
`requestReschedule` and `respondToReschedule`:
`userRole === ATHLETE ? prisma.athlete.findUnique : prisma.coach.findUnique`,
returning the row id. -/
def findUser (db : DB) (userRole : UserRole) (userEmail : String) : Option Nat :=
  if userRole = UserRole.ATHLETE then
    (db.athletes.find? (fun a => decide (a.email = userEmail))).map Athlete.id
  else
    (db.coaches.find? (fun c => decide (c.email = userEmail))).map Coach.id

/-- `tx.booking.update where id, data status` over the bookings table. -/
def updateBookingStatus (db : DB) (bookingId : Nat) (st : BookingStatus) : DB :=
  { db with
      bookings := db.bookings.map fun b =>
        if b.id = bookingId then { b with status := st } else b }

/-- `tx.timeSlot.update where id, data isBooked` over the slots table. -/
def setSlotBooked (db : DB) (slotId : Nat) (flag : Bool) : DB :=
  { db with
      timeSlots := db.timeSlots.map fun s =>
        if s.id = slotId then { s with isBooked := flag } else s }

/-- The `findFirst` filter of the double-booking guard in `createIntoDb`:
same slot, `bookingDate` within the 24-hour window of the requested day,
status in the active set. -/
def dayConflictPred (slotId : Nat) (dayLo : Nat) (b : Booking) : Bool :=
  decide (b.timeSlotId = some slotId) && decide (dayLo ≤ b.bookingDate) &&
  decide (b.bookingDate < dayLo + minutesPerDay) && isActiveStatus b.status

/-- The `findFirst` filter of the double-booking guard in
`requestReschedule`: same slot, exactly equal `bookingDate`, active status. -/
def exactConflictPred (slotId : Nat) (date : Nat) (b : Booking) : Bool :=
  decide (b.timeSlotId = some slotId) && decide (b.bookingDate = date) &&
  isActiveStatus b.status

/-- The request body of `BookingServices.createIntoDb`. -/
structure CreateBookingInput where
  athleteEmail : String
  coachId : Nat
  timeSlotId : Nat
  bookingDate : Nat
  notes : String
deriving DecidableEq, Repr

/-- `BookingServices.createIntoDb`: the transactional create-booking
operation, with the checks in source order.  `now` stands for `new Date()`.
On success it returns the post-transaction state and the inserted row. -/
def createIntoDb (now : Nat) (db : DB) (inp : CreateBookingInput) :
    Except BookingError (DB × Booking) :=
  match db.athletes.find? (fun a => decide (a.email = inp.athleteEmail)) with
  | none => .error .athleteNotFound
  | some athlete =>
    match db.timeSlots.find? (fun s => decide (s.id = inp.timeSlotId)) with
    | none => .error .timeSlotNotFound
    | some timeSlot =>
      match db.availabilities.find?
          (fun a => decide (a.id = timeSlot.availabilityId)) with
      | none => .error .availabilityMissing
      | some availability =>
        if availability.coachId ≠ inp.coachId then .error .slotWrongCoach
        else if timeSlot.status ≠ SlotStatus.ACTIVE then .error .slotNotActive
        else
          let bookingDateOnly := dayStart inp.bookingDate
          let availabilityDateOnly := dayStart availability.slotDate
          if bookingDateOnly ≠ availabilityDateOnly then .error .dateMismatch
          else if bookingDateOnly < dayStart now then .error .pastDate
          else if (db.bookings.find?
              (dayConflictPred inp.timeSlotId bookingDateOnly)).isSome then
            .error .slotAlreadyBooked
          else
            match db.coaches.find? (fun c => decide (c.id = inp.coachId)) with
            | none => .error .coachNotFound
            | some _coach =>
              let bookingDateTime := dayStart inp.bookingDate + timeOfDay timeSlot.startTime
              let booking : Booking :=
                { id := db.nextBookingId
                  athleteId := athlete.id
                  coachId := inp.coachId
                  timeSlotId := some inp.timeSlotId
                  bookingDate := bookingDateTime
                  status := BookingStatus.CONFIRMED
                  rescheduleFromId := none
                  notes := inp.notes }
              let db₁ := { db with
                            bookings := db.bookings ++ [booking]
                            nextBookingId := db.nextBookingId + 1 }
              .ok (setSlotBooked db₁ inp.timeSlotId true, booking)

/-- `BookingServices.cancelBooking`: authorize the booking's athlete or
coach, refuse CANCELLED / FINISHED, then set the booking CANCELLED and
release its time slot's `isBooked` flag. -/
def cancelBooking (db : DB) (userEmail : String) (userRole : UserRole)
    (bookingId : Nat) : Except BookingError DB :=
  match findUser db userRole userEmail with
  | none => .error .userNotFound
  | some userId =>
    match db.bookings.find? (fun b => decide (b.id = bookingId)) with
    | none => .error .bookingNotFound
    | some booking =>
      let isAthlete := userRole = UserRole.ATHLETE ∧ booking.athleteId = userId
      let isCoach := userRole = UserRole.COACH ∧ booking.coachId = userId
      if ¬isAthlete ∧ ¬isCoach then .error .notAuthorizedCancel
      else if booking.status = BookingStatus.CANCELLED then .error .alreadyCancelled
      else if booking.status = BookingStatus.FINISHED then .error .cannotCancelFinished
      else
        let db₁ := updateBookingStatus db bookingId BookingStatus.CANCELLED
        match booking.timeSlotId with
        | some slotId => .ok (setSlotBooked db₁ slotId false)
        | none => .ok db₁

/-- `BookingServices.finishBooking`: coach-only, owning coach only, refuses
FINISHED / CANCELLED and future `bookingDate`, then sets FINISHED.  The
explicit CONFIRMED/RESCHEDULED_ACCEPTED allowlist is commented out in the
source and therefore absent here. -/
def finishBooking (db : DB) (now : Nat) (userEmail : String)
    (userRole : UserRole) (bookingId : Nat) : Except BookingError DB :=
  if userRole ≠ UserRole.COACH then .error .onlyCoachCanFinish
  else
    match db.coaches.find? (fun c => decide (c.email = userEmail)) with
    | none => .error .coachNotFound
    | some coach =>
      match db.bookings.find? (fun b => decide (b.id = bookingId)) with
      | none => .error .bookingNotFound
      | some booking =>
        if booking.coachId ≠ coach.id then .error .notAuthorizedFinish
        else if booking.status = BookingStatus.FINISHED then .error .alreadyFinished
        else if booking.status = BookingStatus.CANCELLED then .error .cannotFinishCancelled
        else if now < booking.bookingDate then .error .cannotFinishFuture
        else .ok (updateBookingStatus db bookingId BookingStatus.FINISHED)

/-- The payload of `BookingServices.requestReschedule`. -/
structure RescheduleInput where
  bookingId : Nat
  newTimeSlotId : Nat
  newBookingDate : Nat
  notes : Option String
deriving DecidableEq, Repr

/-- `payload.notes || "Reschedule requested by <role>"`. -/
def rescheduleNotes (userRole : UserRole) : Option String → String
  | some n => n
  | none =>
    match userRole with
    | .ATHLETE => "Reschedule requested by athlete"
    | .COACH => "Reschedule requested by coach"
    | .ADMIN => "Reschedule requested by admin"

/-- `BookingServices.requestReschedule`: creates a new RESCHEDULE_REQUEST
booking linked to the original via `rescheduleFromId`, leaving the original
row untouched.  The pending-request guard tests the original booking's own
status, exactly as the source does. -/
def requestReschedule (db : DB) (userEmail : String) (userRole : UserRole)
    (payload : RescheduleInput) : Except BookingError (DB × Booking) :=
  match findUser db userRole userEmail with
  | none => .error .userNotFound
  | some userId =>
    match db.bookings.find? (fun b => decide (b.id = payload.bookingId)) with
    | none => .error .originalBookingNotFound
    | some originalBooking =>
      let isAthlete := userRole = UserRole.ATHLETE ∧ originalBooking.athleteId = userId
      let isCoach := userRole = UserRole.COACH ∧ originalBooking.coachId = userId
      if ¬isAthlete ∧ ¬isCoach then .error .notAuthorizedReschedule
      else if originalBooking.status = BookingStatus.RESCHEDULE_REQUEST then
        .error .pendingRescheduleExists
      else
        match db.timeSlots.find? (fun s => decide (s.id = payload.newTimeSlotId)) with
        | none => .error .newTimeSlotNotFound
        | some newTimeSlot =>
          match db.availabilities.find?
              (fun a => decide (a.id = newTimeSlot.availabilityId)) with
          | none => .error .availabilityMissing
          | some availability =>
            if availability.coachId ≠ originalBooking.coachId then
              .error .newSlotWrongCoach
            else if dayStart availability.slotDate ≠ dayStart payload.newBookingDate then
              .error .newSlotDateMismatch
            else if (db.bookings.find?
                (exactConflictPred payload.newTimeSlotId payload.newBookingDate)).isSome then
              .error .newSlotAlreadyBooked
            else
              let rescheduleBooking : Booking :=
                { id := db.nextBookingId
                  athleteId := originalBooking.athleteId
                  coachId := originalBooking.coachId
                  timeSlotId := some payload.newTimeSlotId
                  bookingDate := payload.newBookingDate
                  status := BookingStatus.RESCHEDULE_REQUEST
                  rescheduleFromId := some payload.bookingId
                  notes := rescheduleNotes userRole payload.notes }
              .ok ({ db with
                      bookings := db.bookings ++ [rescheduleBooking]
                      nextBookingId := db.nextBookingId + 1 },
                   rescheduleBooking)

/-- The two runtime values of `payload.status` in `respondToReschedule`. -/
inductive RespondStatus where
  | RESCHEDULED_ACCEPTED
  | RESCHEDULED_CANCELED
deriving DecidableEq, Repr

/-- `BookingServices.respondToReschedule`: accept cancels the original and
marks the proposal RESCHEDULED_ACCEPTED in one transaction; reject marks the
proposal RESCHEDULED_CANCELED and does not touch the original.
`proposalId` is the payload field named `rescheduleFromId` in the source
(the id of the proposal booking itself). -/
def respondToReschedule (db : DB) (userEmail : String) (userRole : UserRole)
    (proposalId : Nat) (decision : RespondStatus) : Except BookingError DB :=
  match findUser db userRole userEmail with
  | none => .error .userNotFound
  | some userId =>
    match db.bookings.find? (fun b => decide (b.id = proposalId)) with
    | none => .error .rescheduleRequestNotFound
    | some rescheduleRequest =>
      if rescheduleRequest.status ≠ BookingStatus.RESCHEDULE_REQUEST then
        .error .notPendingRequest
      else
        let isAthlete := userRole = UserRole.ATHLETE ∧ rescheduleRequest.athleteId = userId
        let isCoach := userRole = UserRole.COACH ∧ rescheduleRequest.coachId = userId
        if ¬isAthlete ∧ ¬isCoach then .error .notAuthorizedRespond
        else
          match rescheduleRequest.rescheduleFromId with
          | none => .error .originalNotFound
          | some originalId =>
            match db.bookings.find? (fun b => decide (b.id = originalId)) with
            | none => .error .originalNotFound
            | some _original =>
              match decision with
              | .RESCHEDULED_ACCEPTED =>
                let db₁ := updateBookingStatus db originalId BookingStatus.CANCELLED
                .ok (updateBookingStatus db₁ proposalId BookingStatus.RESCHEDULED_ACCEPTED)
              | .RESCHEDULED_CANCELED =>
                .ok (updateBookingStatus db proposalId BookingStatus.RESCHEDULED_CANCELED)

end BookingService

section SlotGeneration

/-- Closed form of the slot-generation loop: walking from `cur`, it emits
exactly one 60-minute slot per whole interval remaining before `e`. -/
theorem generateSlotsAux_closed_form :
    ∀ (n e cur : Nat), e - cur ≤ n →
      ScheduleService.generateSlotsAux e cur =
        (List.range ((e - cur) / 60)).map
          (fun k => (cur + 60 * k, cur + 60 * k + 60)) := by
  intro n
  induction n with
  | zero =>
    intro e cur h
    rw [ScheduleService.generateSlotsAux]
    have h1 : ¬ cur < e := by omega
    rw [if_neg h1]
    have h2 : (e - cur) / 60 = 0 := by omega
    rw [h2]
    simp
  | succ n ih =>
    intro e cur h
    rw [ScheduleService.generateSlotsAux]
    simp only [ScheduleService.intervalTime]
    by_cases h1 : cur < e
    · rw [if_pos h1]
      by_cases h2 : cur + 60 ≤ e
      · rw [if_pos h2]
        rw [ih e (cur + 60) (by omega)]
        have hdiv : (e - cur) / 60 = (e - (cur + 60)) / 60 + 1 := by omega
        rw [hdiv, List.range_succ_eq_map]
        simp only [List.map_cons, List.map_map]
        congr 1
        simp only [List.map_inj_left, Function.comp_apply, Prod.mk.injEq]
        intro k hk
        omega
      · rw [if_neg h2]
        have h3 : (e - cur) / 60 = 0 := by omega
        rw [h3]
        simp
    · rw [if_neg h1]
      have h3 : (e - cur) / 60 = 0 := by omega
      rw [h3]
      simp

/-- Claim C7: the slot generator tiles `[windowStart, windowEnd)` with
consecutive 60-minute slots (the source's fixed `intervalTime`), emitting a
slot only when its end does not exceed the window end, so the slots are
non-overlapping, none exceeds `windowEnd`, and their count is the number of
whole intervals fitting in the window — zero when `windowEnd ≤ windowStart`. -/
theorem claim_C7_slot_generation (s e : Nat) :
    ScheduleService.createScheduleSlots s e =
      (List.range ((e - s) / ScheduleService.intervalTime)).map
        (fun k => (s + ScheduleService.intervalTime * k,
                   s + ScheduleService.intervalTime * k + ScheduleService.intervalTime)) ∧
    (ScheduleService.createScheduleSlots s e).length =
      (e - s) / ScheduleService.intervalTime ∧
    (e ≤ s → ScheduleService.createScheduleSlots s e = []) ∧
    (∀ p ∈ ScheduleService.createScheduleSlots s e,
        p.2 = p.1 + ScheduleService.intervalTime ∧ p.2 ≤ e) ∧
    List.Pairwise (fun p q => p.2 ≤ q.1) (ScheduleService.createScheduleSlots s e) := by
  have hmain : ScheduleService.createScheduleSlots s e =
      (List.range ((e - s) / 60)).map (fun k => (s + 60 * k, s + 60 * k + 60)) :=
    generateSlotsAux_closed_form (e - s) e s (le_refl _)
  simp only [ScheduleService.intervalTime]
  refine ⟨hmain, ?_, ?_, ?_, ?_⟩
  · rw [hmain]; simp
  · intro hle
    rw [hmain]
    have h0 : (e - s) / 60 = 0 := by omega
    rw [h0]; simp
  · intro p hp
    rw [hmain] at hp
    simp only [List.mem_map, List.mem_range] at hp
    obtain ⟨k, hk, hpk⟩ := hp
    subst hpk
    refine ⟨rfl, ?_⟩
    simp only
    omega
  · rw [hmain]
    rw [List.pairwise_map]
    have := List.pairwise_lt_range ((e - s) / 60)
    apply this.imp
    intro a b hab
    simp only
    omega

/-- Witness for C7: a zero-width window produces no slot, and a 150-minute
window produces exactly two whole 60-minute slots. -/
theorem claim_C7_slot_generation_witness :
    ScheduleService.createScheduleSlots 720 720 = [] ∧
    (ScheduleService.createScheduleSlots 600 750).length = 2 :=
  ⟨(claim_C7_slot_generation 720 720).2.2.1 (by decide),
   ((claim_C7_slot_generation 600 750).2.1).trans (by decide)⟩

/-- Claim C8: for non-degenerate ranges, the three OR'd overlap cases of
`addNewSlot` hold exactly when `candidateStart < existingEnd` and
`candidateEnd > existingStart` (half-open interval semantics), so a candidate
touching an existing slot's boundary is not flagged as conflicting. -/
theorem claim_C8_overlap_equiv (cS cE eS eE : Nat)
    (hc : cS < cE) (he : eS < eE) :
    ScheduleService.hasConflict cS cE eS eE = true ↔ (cS < eE ∧ eS < cE) := by
  simp only [ScheduleService.hasConflict, Bool.or_eq_true, Bool.and_eq_true,
    decide_eq_true_eq]
  omega

/-- Witness for C8 at the spec's boundary example: `[10:30,11:30)` against
`[11:00,12:00)` (in minutes of the day) is conflicting precisely because the
half-open characterization holds there. -/
theorem claim_C8_overlap_equiv_witness :
    ScheduleService.hasConflict 630 690 660 720 = true ↔ (630 < 720 ∧ 660 < 690) :=
  claim_C8_overlap_equiv 630 690 660 720 (by decide) (by decide)

end SlotGeneration

section BookingTheorems

open BookingService

/-- Claim C1: `createIntoDb` succeeds only when the time slot exists, its
parent availability belongs to the named coach, the slot is ACTIVE, the
booking date matches the availability's slot date at day granularity, the
date is not in the past, and no active-status booking already holds the
(slot, day) pair; on success it appends a CONFIRMED booking row and sets
the slot's `isBooked` flag.  Moreover, when every earlier check passes but
an active booking already holds the (slot, day) pair, the call fails with
the Conflict error. -/
theorem claim_C1_create_booking :
    (∀ (now : Nat) (db : DB) (inp : CreateBookingInput) (db' : DB) (b : Booking),
      createIntoDb now db inp = .ok (db', b) →
      (db.timeSlots.find? (fun s => decide (s.id = inp.timeSlotId))).isSome = true ∧
      (∀ slot, db.timeSlots.find? (fun s => decide (s.id = inp.timeSlotId)) = some slot →
        slot.status = SlotStatus.ACTIVE ∧
        ∀ avail, db.availabilities.find?
            (fun a => decide (a.id = slot.availabilityId)) = some avail →
          avail.coachId = inp.coachId ∧
          dayStart inp.bookingDate = dayStart avail.slotDate) ∧
      dayStart now ≤ dayStart inp.bookingDate ∧
      (∀ b2 ∈ db.bookings,
        dayConflictPred inp.timeSlotId (dayStart inp.bookingDate) b2 = false) ∧
      b.status = BookingStatus.CONFIRMED ∧
      db'.bookings = db.bookings ++ [b] ∧
      db'.timeSlots = db.timeSlots.map
        (fun s => if s.id = inp.timeSlotId then { s with isBooked := true } else s)) ∧
    (∀ (now : Nat) (db : DB) (inp : CreateBookingInput)
        (slot : TimeSlot) (avail : CoachAvailability),
      (db.athletes.find? (fun a => decide (a.email = inp.athleteEmail))).isSome = true →
      db.timeSlots.find? (fun s => decide (s.id = inp.timeSlotId)) = some slot →
      db.availabilities.find?
        (fun a => decide (a.id = slot.availabilityId)) = some avail →
      avail.coachId = inp.coachId →
      slot.status = SlotStatus.ACTIVE →
      dayStart inp.bookingDate = dayStart avail.slotDate →
      dayStart now ≤ dayStart inp.bookingDate →
      (db.bookings.find?
        (dayConflictPred inp.timeSlotId (dayStart inp.bookingDate))).isSome = true →
      createIntoDb now db inp = .error .slotAlreadyBooked) := by
  constructor
  · intro now db inp db' b h
    rw [createIntoDb] at h
    cases hath : db.athletes.find? (fun a => decide (a.email = inp.athleteEmail)) with
    | none => simp only [hath] at h; exact Except.noConfusion h
    | some athlete =>
    simp only [hath] at h
    cases hslot : db.timeSlots.find? (fun s => decide (s.id = inp.timeSlotId)) with
    | none => simp only [hslot] at h; exact Except.noConfusion h
    | some timeSlot =>
    simp only [hslot] at h
    cases havail : db.availabilities.find?
        (fun a => decide (a.id = timeSlot.availabilityId)) with
    | none => simp only [havail] at h; exact Except.noConfusion h
    | some availability =>
    simp only [havail] at h
    by_cases hco : availability.coachId = inp.coachId
    swap
    · rw [if_pos hco] at h; exact Except.noConfusion h
    rw [if_neg (not_not_intro hco)] at h
    by_cases hst : timeSlot.status = SlotStatus.ACTIVE
    swap
    · rw [if_pos hst] at h; exact Except.noConfusion h
    rw [if_neg (not_not_intro hst)] at h
    by_cases hdm : dayStart inp.bookingDate = dayStart availability.slotDate
    swap
    · rw [if_pos hdm] at h; exact Except.noConfusion h
    rw [if_neg (not_not_intro hdm)] at h
    by_cases hpast : dayStart inp.bookingDate < dayStart now
    · rw [if_pos hpast] at h; exact Except.noConfusion h
    rw [if_neg hpast] at h
    by_cases hcf : (db.bookings.find?
        (dayConflictPred inp.timeSlotId (dayStart inp.bookingDate))).isSome = true
    · rw [if_pos hcf] at h; exact Except.noConfusion h
    rw [if_neg hcf] at h
    cases hcoach : db.coaches.find? (fun c => decide (c.id = inp.coachId)) with
    | none => simp only [hcoach] at h; exact Except.noConfusion h
    | some coach =>
    simp only [hcoach] at h
    rw [Except.ok.injEq, Prod.mk.injEq] at h
    obtain ⟨hdb', hb⟩ := h
    subst hdb'
    subst hb
    refine ⟨?_, ?_, ?_, ?_, ?_, ?_, ?_⟩
    · rfl
    · intro slot' hs'
      obtain rfl := Option.some.inj hs'
      refine ⟨hst, ?_⟩
      intro avail' ha'
      rw [havail, Option.some.injEq] at ha'
      subst ha'
      exact ⟨hco, hdm⟩
    · omega
    · intro b2 hb2
      have hnone : db.bookings.find?
          (dayConflictPred inp.timeSlotId (dayStart inp.bookingDate)) = none :=
        Option.not_isSome_iff_eq_none.mp (by simpa using hcf)
      have := List.find?_eq_none.mp hnone b2 hb2
      simpa using this
    · rfl
    · simp [setSlotBooked]
    · simp [setSlotBooked]
  · intro now db inp slot avail hath hslot havail hco hst hdm hpast hcf
    obtain ⟨athlete, hath'⟩ := Option.isSome_iff_exists.mp hath
    rw [createIntoDb]
    simp only [hath', hslot, havail]
    rw [if_neg (not_not_intro hco)]
    rw [if_neg (not_not_intro hst)]
    rw [if_neg (not_not_intro hdm)]
    rw [if_neg (by omega : ¬ dayStart inp.bookingDate < dayStart now)]
    rw [if_pos hcf]

/-- Concrete state for exercising `createIntoDb`: one athlete, one coach,
one availability on day 10 (minute 14400), one free ACTIVE slot 10:00-11:00. -/
def dbC1 : DB :=
  { athletes := [⟨1, "a@x"⟩]
    coaches := [⟨2, "c@x"⟩]
    availabilities := [⟨3, 2, 14400⟩]
    timeSlots := [⟨4, 3, 15000, 15060, false, SlotStatus.ACTIVE⟩]
    bookings := []
    nextBookingId := 100 }

def inpC1 : CreateBookingInput := ⟨"a@x", 2, 4, 14400, "first session"⟩

/-- The booking row `createIntoDb` inserts for `dbC1`/`inpC1`. -/
def bC1 : Booking := ⟨100, 1, 2, some 4, 15000, BookingStatus.CONFIRMED, none, "first session"⟩

/-- The post-state of that successful create. -/
def dbC1ok : DB :=
  { athletes := [⟨1, "a@x"⟩]
    coaches := [⟨2, "c@x"⟩]
    availabilities := [⟨3, 2, 14400⟩]
    timeSlots := [⟨4, 3, 15000, 15060, true, SlotStatus.ACTIVE⟩]
    bookings := [bC1]
    nextBookingId := 101 }

/-- `dbC1` with a CONFIRMED booking already holding slot 4 on day 10. -/
def dbC1conf : DB :=
  { dbC1 with bookings := [⟨50, 1, 2, some 4, 15000, BookingStatus.CONFIRMED, none, "taken"⟩] }

/-- Witness for C1: a concrete successful create inserts the CONFIRMED row
and flags the slot, and the same request against an already-booked slot/day
fails with the Conflict error. -/
theorem claim_C1_create_booking_witness :
    bC1.status = BookingStatus.CONFIRMED ∧
    dbC1ok.bookings = dbC1.bookings ++ [bC1] ∧
    dbC1ok.timeSlots = dbC1.timeSlots.map
      (fun s => if s.id = inpC1.timeSlotId then { s with isBooked := true } else s) ∧
    createIntoDb 14400 dbC1conf inpC1 = .error .slotAlreadyBooked := by
  have h1 := claim_C1_create_booking.1 14400 dbC1 inpC1 dbC1ok bC1 rfl
  have h2 := claim_C1_create_booking.2 14400 dbC1conf inpC1
    ⟨4, 3, 15000, 15060, false, SlotStatus.ACTIVE⟩ ⟨3, 2, 14400⟩
    (by decide) (by decide) (by decide) (by decide) (by decide) (by decide)
    (by decide) (by decide)
  exact ⟨h1.2.2.2.2.1, h1.2.2.2.2.2.1, h1.2.2.2.2.2.2, h2⟩

/-- Claim C2: responding to a reschedule with accept sets, in one state
update, the proposal booking to RESCHEDULED_ACCEPTED and the original
booking (the row `rescheduleFromId` points at) to CANCELLED; reject sets
the proposal to RESCHEDULED_CANCELED and leaves every other booking — the
original included — unchanged; and the call fails whenever the target
booking's status is not RESCHEDULE_REQUEST or the responder is neither the
athlete nor the coach on it. -/
theorem claim_C2_respond_to_reschedule :
    (∀ (db : DB) (e : String) (r : UserRole) (pid : Nat) (db' : DB),
      respondToReschedule db e r pid .RESCHEDULED_ACCEPTED = .ok db' →
      ∀ rq, db.bookings.find? (fun b => decide (b.id = pid)) = some rq →
        rq.status = BookingStatus.RESCHEDULE_REQUEST ∧
        ∀ origId, rq.rescheduleFromId = some origId →
          db'.bookings = (db.bookings.map (fun b =>
              if b.id = origId then { b with status := BookingStatus.CANCELLED } else b)).map
            (fun b =>
              if b.id = pid then { b with status := BookingStatus.RESCHEDULED_ACCEPTED } else b)) ∧
    (∀ (db : DB) (e : String) (r : UserRole) (pid : Nat) (db' : DB),
      respondToReschedule db e r pid .RESCHEDULED_CANCELED = .ok db' →
      db'.bookings = db.bookings.map (fun b =>
        if b.id = pid then { b with status := BookingStatus.RESCHEDULED_CANCELED } else b) ∧
      ∀ b2 ∈ db.bookings, b2.id ≠ pid → b2 ∈ db'.bookings) ∧
    (∀ (db : DB) (e : String) (r : UserRole) (pid : Nat) (d : RespondStatus) (rq : Booking),
      db.bookings.find? (fun b => decide (b.id = pid)) = some rq →
      rq.status ≠ BookingStatus.RESCHEDULE_REQUEST →
      (respondToReschedule db e r pid d).isOk = false) ∧
    (∀ (db : DB) (e : String) (r : UserRole) (pid : Nat) (d : RespondStatus)
        (rq : Booking) (userId : Nat),
      findUser db r e = some userId →
      db.bookings.find? (fun b => decide (b.id = pid)) = some rq →
      ¬(r = UserRole.ATHLETE ∧ rq.athleteId = userId) →
      ¬(r = UserRole.COACH ∧ rq.coachId = userId) →
      (respondToReschedule db e r pid d).isOk = false) := by
  refine ⟨?_, ?_, ?_, ?_⟩
  · intro db e r pid db' h rq hrq
    rw [respondToReschedule] at h
    cases hu : findUser db r e with
    | none => simp only [hu] at h; exact Except.noConfusion h
    | some userId =>
    simp only [hu, hrq] at h
    by_cases hst : rq.status = BookingStatus.RESCHEDULE_REQUEST
    swap
    · rw [if_pos hst] at h; exact Except.noConfusion h
    rw [if_neg (not_not_intro hst)] at h
    by_cases hauth : ¬(r = UserRole.ATHLETE ∧ rq.athleteId = userId) ∧
        ¬(r = UserRole.COACH ∧ rq.coachId = userId)
    · rw [if_pos hauth] at h; exact Except.noConfusion h
    rw [if_neg hauth] at h
    cases hfrom : rq.rescheduleFromId with
    | none => simp only [hfrom] at h; exact Except.noConfusion h
    | some origId =>
    simp only [hfrom] at h
    cases horig : db.bookings.find? (fun b => decide (b.id = origId)) with
    | none => simp only [horig] at h; exact Except.noConfusion h
    | some orig =>
    simp only [horig] at h
    rw [Except.ok.injEq] at h
    subst h
    refine ⟨hst, ?_⟩
    intro origId' hfrom'
    obtain rfl := Option.some.inj hfrom'
    simp [updateBookingStatus]
  · intro db e r pid db' h
    rw [respondToReschedule] at h
    cases hu : findUser db r e with
    | none => simp only [hu] at h; exact Except.noConfusion h
    | some userId =>
    simp only [hu] at h
    cases hrq : db.bookings.find? (fun b => decide (b.id = pid)) with
    | none => simp only [hrq] at h; exact Except.noConfusion h
    | some rq =>
    simp only [hrq] at h
    by_cases hst : rq.status = BookingStatus.RESCHEDULE_REQUEST
    swap
    · rw [if_pos hst] at h; exact Except.noConfusion h
    rw [if_neg (not_not_intro hst)] at h
    by_cases hauth : ¬(r = UserRole.ATHLETE ∧ rq.athleteId = userId) ∧
        ¬(r = UserRole.COACH ∧ rq.coachId = userId)
    · rw [if_pos hauth] at h; exact Except.noConfusion h
    rw [if_neg hauth] at h
    cases hfrom : rq.rescheduleFromId with
    | none => simp only [hfrom] at h; exact Except.noConfusion h
    | some origId =>
    simp only [hfrom] at h
    cases horig : db.bookings.find? (fun b => decide (b.id = origId)) with
    | none => simp only [horig] at h; exact Except.noConfusion h
    | some orig =>
    simp only [horig] at h
    rw [Except.ok.injEq] at h
    subst h
    refine ⟨by simp [updateBookingStatus], ?_⟩
    intro b2 hb2 hne
    simp only [updateBookingStatus, List.mem_map]
    exact ⟨b2, hb2, by simp [hne]⟩
  · intro db e r pid d rq hrq hst
    rw [respondToReschedule]
    cases hu : findUser db r e with
    | none => rfl
    | some userId =>
    simp only [hrq]
    rw [if_pos hst]
    rfl
  · intro db e r pid d rq userId hu hrq hA hC
    rw [respondToReschedule]
    simp only [hu, hrq]
    by_cases hst : rq.status = BookingStatus.RESCHEDULE_REQUEST
    · rw [if_neg (not_not_intro hst), if_pos ⟨hA, hC⟩]
      rfl
    · rw [if_pos hst]
      rfl

/-- Concrete state for the reschedule-response scenarios: original booking
10 (CONFIRMED, slot 4) and proposal booking 11 (RESCHEDULE_REQUEST,
`rescheduleFromId = 10`, slot 6). -/
def dbC2 : DB :=
  { athletes := [⟨1, "a@x"⟩]
    coaches := [⟨2, "c@x"⟩]
    availabilities := [⟨3, 2, 14400⟩, ⟨5, 2, 15840⟩]
    timeSlots := [⟨4, 3, 15000, 15060, true, SlotStatus.ACTIVE⟩,
                  ⟨6, 5, 16440, 16500, false, SlotStatus.ACTIVE⟩]
    bookings := [⟨10, 1, 2, some 4, 15000, BookingStatus.CONFIRMED, none, "orig"⟩,
                 ⟨11, 1, 2, some 6, 16440, BookingStatus.RESCHEDULE_REQUEST, some 10, "prop"⟩]
    nextBookingId := 12 }

/-- Post-state of accepting proposal 11 in `dbC2`. -/
def dbC2acc : DB :=
  { dbC2 with
      bookings := [⟨10, 1, 2, some 4, 15000, BookingStatus.CANCELLED, none, "orig"⟩,
                   ⟨11, 1, 2, some 6, 16440, BookingStatus.RESCHEDULED_ACCEPTED, some 10, "prop"⟩] }

/-- Post-state of rejecting proposal 11 in `dbC2`. -/
def dbC2rej : DB :=
  { dbC2 with
      bookings := [⟨10, 1, 2, some 4, 15000, BookingStatus.CONFIRMED, none, "orig"⟩,
                   ⟨11, 1, 2, some 6, 16440, BookingStatus.RESCHEDULED_CANCELED, some 10, "prop"⟩] }

/-- Witness for C2: accepting proposal 11 cancels original 10 and accepts
11; rejecting instead marks 11 RESCHEDULED_CANCELED while original 10 stays
in the post-state untouched; and responding to the already-accepted
proposal fails. -/
theorem claim_C2_respond_to_reschedule_witness :
    dbC2acc.bookings = (dbC2.bookings.map (fun b =>
        if b.id = 10 then { b with status := BookingStatus.CANCELLED } else b)).map
      (fun b =>
        if b.id = 11 then { b with status := BookingStatus.RESCHEDULED_ACCEPTED } else b) ∧
    dbC2rej.bookings = dbC2.bookings.map (fun b =>
        if b.id = 11 then { b with status := BookingStatus.RESCHEDULED_CANCELED } else b) ∧
    (⟨10, 1, 2, some 4, 15000, BookingStatus.CONFIRMED, none, "orig"⟩ : Booking) ∈
      dbC2rej.bookings ∧
    (respondToReschedule dbC2acc "a@x" UserRole.ATHLETE 11 .RESCHEDULED_CANCELED).isOk = false := by
  have h1 := claim_C2_respond_to_reschedule.1 dbC2 "a@x" UserRole.ATHLETE 11 dbC2acc rfl
    ⟨11, 1, 2, some 6, 16440, BookingStatus.RESCHEDULE_REQUEST, some 10, "prop"⟩ rfl
  have h2 := claim_C2_respond_to_reschedule.2.1 dbC2 "a@x" UserRole.ATHLETE 11 dbC2rej rfl
  have h3 := claim_C2_respond_to_reschedule.2.2.1 dbC2acc "a@x" UserRole.ATHLETE 11
    .RESCHEDULED_CANCELED
    ⟨11, 1, 2, some 6, 16440, BookingStatus.RESCHEDULED_ACCEPTED, some 10, "prop"⟩
    rfl (by decide)
  exact ⟨h1.2 10 rfl, h2.1, h2.2 _ (by decide) (by decide), h3⟩

/-- Claim C3 (amended): a successful `requestReschedule` appends a new
booking row with status RESCHEDULE_REQUEST and `rescheduleFromId` equal to
the original booking's id, targeting a slot of the same coach whose
availability date matches the new booking date at day granularity; every
pre-existing booking row — the original included — is left unchanged.  The
pending-request guard, however, only rejects the call when the original
booking's OWN status is RESCHEDULE_REQUEST; it does not scan for existing
proposals pointing at the original. -/
theorem claim_C3_request_reschedule :
    (∀ (db : DB) (e : String) (r : UserRole) (p : RescheduleInput)
        (db' : DB) (nb : Booking),
      requestReschedule db e r p = .ok (db', nb) →
      nb.status = BookingStatus.RESCHEDULE_REQUEST ∧
      nb.rescheduleFromId = some p.bookingId ∧
      nb.timeSlotId = some p.newTimeSlotId ∧
      nb.bookingDate = p.newBookingDate ∧
      db'.bookings = db.bookings ++ [nb] ∧
      db'.timeSlots = db.timeSlots ∧
      (∀ slot, db.timeSlots.find? (fun s => decide (s.id = p.newTimeSlotId)) = some slot →
        ∀ avail, db.availabilities.find?
            (fun a => decide (a.id = slot.availabilityId)) = some avail →
          dayStart avail.slotDate = dayStart p.newBookingDate ∧
          ∀ orig, db.bookings.find? (fun b => decide (b.id = p.bookingId)) = some orig →
            avail.coachId = orig.coachId) ∧
      (∀ orig, db.bookings.find? (fun b => decide (b.id = p.bookingId)) = some orig →
        orig.status ≠ BookingStatus.RESCHEDULE_REQUEST ∧ orig ∈ db'.bookings)) ∧
    (∀ (db : DB) (e : String) (r : UserRole) (p : RescheduleInput) (orig : Booking),
      db.bookings.find? (fun b => decide (b.id = p.bookingId)) = some orig →
      orig.status = BookingStatus.RESCHEDULE_REQUEST →
      (requestReschedule db e r p).isOk = false) := by
  constructor
  · intro db e r p db' nb h
    rw [requestReschedule] at h
    cases hu : findUser db r e with
    | none => simp only [hu] at h; exact Except.noConfusion h
    | some userId =>
    simp only [hu] at h
    cases horig : db.bookings.find? (fun b => decide (b.id = p.bookingId)) with
    | none => simp only [horig] at h; exact Except.noConfusion h
    | some originalBooking =>
    simp only [horig] at h
    by_cases hauth : ¬(r = UserRole.ATHLETE ∧ originalBooking.athleteId = userId) ∧
        ¬(r = UserRole.COACH ∧ originalBooking.coachId = userId)
    · rw [if_pos hauth] at h; exact Except.noConfusion h
    rw [if_neg hauth] at h
    by_cases hpend : originalBooking.status = BookingStatus.RESCHEDULE_REQUEST
    · rw [if_pos hpend] at h; exact Except.noConfusion h
    rw [if_neg hpend] at h
    cases hslot : db.timeSlots.find? (fun s => decide (s.id = p.newTimeSlotId)) with
    | none => simp only [hslot] at h; exact Except.noConfusion h
    | some newTimeSlot =>
    simp only [hslot] at h
    cases havail : db.availabilities.find?
        (fun a => decide (a.id = newTimeSlot.availabilityId)) with
    | none => simp only [havail] at h; exact Except.noConfusion h
    | some availability =>
    simp only [havail] at h
    by_cases hco : availability.coachId = originalBooking.coachId
    swap
    · rw [if_pos hco] at h; exact Except.noConfusion h
    rw [if_neg (not_not_intro hco)] at h
    by_cases hdm : dayStart availability.slotDate = dayStart p.newBookingDate
    swap
    · rw [if_pos hdm] at h; exact Except.noConfusion h
    rw [if_neg (not_not_intro hdm)] at h
    by_cases hcf : (db.bookings.find?
        (exactConflictPred p.newTimeSlotId p.newBookingDate)).isSome = true
    · rw [if_pos hcf] at h; exact Except.noConfusion h
    rw [if_neg hcf] at h
    rw [Except.ok.injEq, Prod.mk.injEq] at h
    obtain ⟨hdb', hnb⟩ := h
    subst hdb'
    subst hnb
    refine ⟨rfl, rfl, rfl, rfl, rfl, rfl, ?_, ?_⟩
    · intro slot' hs'
      obtain rfl := Option.some.inj hs'
      intro avail' ha'
      rw [havail, Option.some.injEq] at ha'
      subst ha'
      refine ⟨hdm, ?_⟩
      intro orig' ho'
      obtain rfl := Option.some.inj ho'
      exact hco
    · intro orig' ho'
      obtain rfl := Option.some.inj ho'
      refine ⟨hpend, ?_⟩
      have := List.find?_some horig
      simp only [List.mem_append]
      exact Or.inl (List.mem_of_find?_eq_some horig)
  · intro db e r p orig horig hpend
    rw [requestReschedule]
    cases hu : findUser db r e with
    | none => rfl
    | some userId =>
    simp only [horig]
    by_cases hauth : ¬(r = UserRole.ATHLETE ∧ orig.athleteId = userId) ∧
        ¬(r = UserRole.COACH ∧ orig.coachId = userId)
    · rw [if_pos hauth]; rfl
    · rw [if_neg hauth, if_pos hpend]; rfl

/-- Concrete state for the reschedule-request scenarios: original booking 10
(CONFIRMED, slot 4), an already-pending proposal 11 against it (slot 6), and
a further free slot 7 on the same day-11 availability. -/
def dbC3 : DB :=
  { athletes := [⟨1, "a@x"⟩]
    coaches := [⟨2, "c@x"⟩]
    availabilities := [⟨3, 2, 14400⟩, ⟨5, 2, 15840⟩]
    timeSlots := [⟨4, 3, 15000, 15060, true, SlotStatus.ACTIVE⟩,
                  ⟨6, 5, 16440, 16500, false, SlotStatus.ACTIVE⟩,
                  ⟨7, 5, 16500, 16560, false, SlotStatus.ACTIVE⟩]
    bookings := [⟨10, 1, 2, some 4, 15000, BookingStatus.CONFIRMED, none, "orig"⟩,
                 ⟨11, 1, 2, some 6, 16440, BookingStatus.RESCHEDULE_REQUEST, some 10, "prop"⟩]
    nextBookingId := 12 }

/-- The proposal row a second `requestReschedule` against booking 10 creates. -/
def nbC3 : Booking :=
  ⟨12, 1, 2, some 7, 16500, BookingStatus.RESCHEDULE_REQUEST, some 10,
    "Reschedule requested by athlete"⟩

/-- Post-state of that second request. -/
def dbC3ok : DB :=
  { dbC3 with
      bookings := [⟨10, 1, 2, some 4, 15000, BookingStatus.CONFIRMED, none, "orig"⟩,
                   ⟨11, 1, 2, some 6, 16440, BookingStatus.RESCHEDULE_REQUEST, some 10, "prop"⟩,
                   nbC3]
      nextBookingId := 13 }

/-- Counterexample for C3 as stated: `dbC3` already holds a pending
RESCHEDULE_REQUEST proposal against booking 10, yet a further
`requestReschedule` against booking 10 (targeting a different slot)
succeeds, leaving two outstanding proposals against the same original. -/
theorem claim_C3_counterexample :
    (dbC3.bookings.find? (fun b => decide (b.rescheduleFromId = some 10) &&
        decide (b.status = BookingStatus.RESCHEDULE_REQUEST))).isSome = true ∧
    (requestReschedule dbC3 "a@x" UserRole.ATHLETE ⟨10, 7, 16500, none⟩).isOk = true ∧
    (match requestReschedule dbC3 "a@x" UserRole.ATHLETE ⟨10, 7, 16500, none⟩ with
      | .ok (db', _) =>
          (db'.bookings.filter (fun b => decide (b.rescheduleFromId = some 10) &&
              decide (b.status = BookingStatus.RESCHEDULE_REQUEST))).length
      | .error _ => 0) = 2 := by
  exact ⟨rfl, rfl, rfl⟩

/-- Witness for C3 (amended): the second request appends the linked
RESCHEDULE_REQUEST row without touching slots or the original booking, and
requesting a reschedule OF the pending proposal itself (booking 11, whose
own status is RESCHEDULE_REQUEST) fails. -/
theorem claim_C3_request_reschedule_witness :
    nbC3.status = BookingStatus.RESCHEDULE_REQUEST ∧
    nbC3.rescheduleFromId = some 10 ∧
    dbC3ok.bookings = dbC3.bookings ++ [nbC3] ∧
    dbC3ok.timeSlots = dbC3.timeSlots ∧
    (requestReschedule dbC3 "a@x" UserRole.ATHLETE ⟨11, 7, 16500, none⟩).isOk = false := by
  have h1 := claim_C3_request_reschedule.1 dbC3 "a@x" UserRole.ATHLETE
    ⟨10, 7, 16500, none⟩ dbC3ok nbC3 rfl
  have h2 := claim_C3_request_reschedule.2 dbC3 "a@x" UserRole.ATHLETE
    ⟨11, 7, 16500, none⟩
    ⟨11, 1, 2, some 6, 16440, BookingStatus.RESCHEDULE_REQUEST, some 10, "prop"⟩
    rfl rfl
  exact ⟨h1.1, h1.2.1, h1.2.2.2.2.1, h1.2.2.2.2.2.1, h2⟩

/-- Claim C5 (amended): an authorized `cancelBooking` succeeds exactly when
the booking's status is neither CANCELLED nor FINISHED — so from CONFIRMED,
RESCHEDULE_REQUEST, RESCHEDULED_ACCEPTED, and also from the fourth
non-excluded status RESCHEDULED_CANCELED; on success the booking moves to
CANCELLED, its time slot's `isBooked` is set to false, and no other slot is
modified. -/
theorem claim_C5_cancel_booking :
    (∀ (db : DB) (e : String) (r : UserRole) (bid : Nat) (db' : DB),
      cancelBooking db e r bid = .ok db' →
      ∀ booking, db.bookings.find? (fun b => decide (b.id = bid)) = some booking →
        booking.status ≠ BookingStatus.CANCELLED ∧
        booking.status ≠ BookingStatus.FINISHED ∧
        db'.bookings = db.bookings.map (fun b =>
          if b.id = bid then { b with status := BookingStatus.CANCELLED } else b) ∧
        db'.timeSlots = (match booking.timeSlotId with
          | some sid => db.timeSlots.map (fun s =>
              if s.id = sid then { s with isBooked := false } else s)
          | none => db.timeSlots)) ∧
    (∀ (db : DB) (e : String) (r : UserRole) (bid : Nat) (userId : Nat) (booking : Booking),
      findUser db r e = some userId →
      db.bookings.find? (fun b => decide (b.id = bid)) = some booking →
      (r = UserRole.ATHLETE ∧ booking.athleteId = userId) ∨
        (r = UserRole.COACH ∧ booking.coachId = userId) →
      booking.status ≠ BookingStatus.CANCELLED →
      booking.status ≠ BookingStatus.FINISHED →
      (cancelBooking db e r bid).isOk = true) ∧
    (∀ (db : DB) (e : String) (r : UserRole) (bid : Nat) (booking : Booking),
      db.bookings.find? (fun b => decide (b.id = bid)) = some booking →
      booking.status = BookingStatus.CANCELLED ∨
        booking.status = BookingStatus.FINISHED →
      (cancelBooking db e r bid).isOk = false) := by
  refine ⟨?_, ?_, ?_⟩
  · intro db e r bid db' h booking' hbk'
    rw [cancelBooking] at h
    cases hu : findUser db r e with
    | none => simp only [hu] at h; exact Except.noConfusion h
    | some userId =>
    simp only [hu] at h
    cases hbk : db.bookings.find? (fun b => decide (b.id = bid)) with
    | none => simp only [hbk] at h; exact Except.noConfusion h
    | some booking =>
    simp only [hbk] at h
    rw [hbk] at hbk'
    obtain rfl := Option.some.inj hbk'
    by_cases hauth : ¬(r = UserRole.ATHLETE ∧ booking.athleteId = userId) ∧
        ¬(r = UserRole.COACH ∧ booking.coachId = userId)
    · rw [if_pos hauth] at h; exact Except.noConfusion h
    rw [if_neg hauth] at h
    by_cases hc : booking.status = BookingStatus.CANCELLED
    · rw [if_pos hc] at h; exact Except.noConfusion h
    rw [if_neg hc] at h
    by_cases hf : booking.status = BookingStatus.FINISHED
    · rw [if_pos hf] at h; exact Except.noConfusion h
    rw [if_neg hf] at h
    refine ⟨hc, hf, ?_⟩
    cases hts : booking.timeSlotId with
    | none =>
      simp only [hts] at h
      rw [Except.ok.injEq] at h
      subst h
      exact ⟨by simp [updateBookingStatus], by simp [updateBookingStatus]⟩
    | some sid =>
      simp only [hts] at h
      rw [Except.ok.injEq] at h
      subst h
      exact ⟨by simp [setSlotBooked, updateBookingStatus],
             by simp [setSlotBooked, updateBookingStatus]⟩
  · intro db e r bid userId booking hu hbk hauth hc hf
    rw [cancelBooking]
    simp only [hu, hbk]
    rw [if_neg (by tauto)]
    rw [if_neg hc, if_neg hf]
    cases hts : booking.timeSlotId with
    | none => rfl
    | some sid => rfl
  · intro db e r bid booking hbk hstat
    rw [cancelBooking]
    cases hu : findUser db r e with
    | none => rfl
    | some userId =>
    simp only [hbk]
    by_cases hauth : ¬(r = UserRole.ATHLETE ∧ booking.athleteId = userId) ∧
        ¬(r = UserRole.COACH ∧ booking.coachId = userId)
    · rw [if_pos hauth]; rfl
    rw [if_neg hauth]
    rcases hstat with hc | hf
    · rw [if_pos hc]; rfl
    · by_cases hc : booking.status = BookingStatus.CANCELLED
      · rw [if_pos hc]; rfl
      · rw [if_neg hc, if_pos hf]; rfl

/-- Concrete state for cancel scenarios: CONFIRMED booking 10 on slot 4;
slot 8 is another booked slot that must stay untouched. -/
def dbC5 : DB :=
  { athletes := [⟨1, "a@x"⟩]
    coaches := [⟨2, "c@x"⟩]
    availabilities := [⟨3, 2, 14400⟩]
    timeSlots := [⟨4, 3, 15000, 15060, true, SlotStatus.ACTIVE⟩,
                  ⟨8, 3, 15060, 15120, true, SlotStatus.ACTIVE⟩]
    bookings := [⟨10, 1, 2, some 4, 15000, BookingStatus.CONFIRMED, none, "o"⟩]
    nextBookingId := 11 }

/-- Post-state of cancelling booking 10 in `dbC5`. -/
def dbC5ok : DB :=
  { dbC5 with
      timeSlots := [⟨4, 3, 15000, 15060, false, SlotStatus.ACTIVE⟩,
                    ⟨8, 3, 15060, 15120, true, SlotStatus.ACTIVE⟩]
      bookings := [⟨10, 1, 2, some 4, 15000, BookingStatus.CANCELLED, none, "o"⟩] }

/-- `dbC5` where the only booking is a rejected reschedule proposal
(status RESCHEDULED_CANCELED). -/
def dbC5x : DB :=
  { dbC5 with
      bookings := [⟨20, 1, 2, some 4, 15000, BookingStatus.RESCHEDULED_CANCELED, none, "rc"⟩] }

/-- Counterexample for C5 as stated: `cancelBooking` also succeeds on a
booking whose status is RESCHEDULED_CANCELED, a fourth status outside the
claimed exact set {CONFIRMED, RESCHEDULE_REQUEST, RESCHEDULED_ACCEPTED}. -/
theorem claim_C5_counterexample :
    dbC5x.bookings.find? (fun b => decide (b.id = 20)) =
      some ⟨20, 1, 2, some 4, 15000, BookingStatus.RESCHEDULED_CANCELED, none, "rc"⟩ ∧
    (cancelBooking dbC5x "a@x" UserRole.ATHLETE 20).isOk = true := by
  exact ⟨rfl, rfl⟩

/-- Witness for C5 (amended): cancelling CONFIRMED booking 10 flips it to
CANCELLED and releases only slot 4, while cancelling it again (already
CANCELLED) fails. -/
theorem claim_C5_cancel_booking_witness :
    dbC5ok.bookings = dbC5.bookings.map (fun b =>
      if b.id = 10 then { b with status := BookingStatus.CANCELLED } else b) ∧
    dbC5ok.timeSlots = dbC5.timeSlots.map (fun s =>
      if s.id = 4 then { s with isBooked := false } else s) ∧
    (cancelBooking dbC5ok "a@x" UserRole.ATHLETE 10).isOk = false := by
  have h1 := claim_C5_cancel_booking.1 dbC5 "a@x" UserRole.ATHLETE 10 dbC5ok rfl
    ⟨10, 1, 2, some 4, 15000, BookingStatus.CONFIRMED, none, "o"⟩ rfl
  have h2 := claim_C5_cancel_booking.2.2 dbC5ok "a@x" UserRole.ATHLETE 10
    ⟨10, 1, 2, some 4, 15000, BookingStatus.CANCELLED, none, "o"⟩ rfl (Or.inl rfl)
  exact ⟨h1.2.2.1, h1.2.2.2, h2⟩

/-- Claim C6 (amended): `finishBooking` is callable only by the owning
coach and moves the booking to FINISHED exactly when its status is neither
FINISHED nor CANCELLED — which admits RESCHEDULE_REQUEST and
RESCHEDULED_CANCELED besides the claimed CONFIRMED and
RESCHEDULED_ACCEPTED — and its `bookingDate` is not in the future; a future
`bookingDate` fails with the cannot-finish-future error, and a non-coach
caller fails outright. -/
theorem claim_C6_finish_booking :
    (∀ (db : DB) (now : Nat) (e : String) (r : UserRole) (bid : Nat) (db' : DB),
      finishBooking db now e r bid = .ok db' →
      r = UserRole.COACH ∧
      db'.bookings = db.bookings.map (fun b =>
        if b.id = bid then { b with status := BookingStatus.FINISHED } else b) ∧
      ∀ booking, db.bookings.find? (fun b => decide (b.id = bid)) = some booking →
        booking.status ≠ BookingStatus.FINISHED ∧
        booking.status ≠ BookingStatus.CANCELLED ∧
        booking.bookingDate ≤ now ∧
        ∀ coach, db.coaches.find? (fun c => decide (c.email = e)) = some coach →
          booking.coachId = coach.id) ∧
    (∀ (db : DB) (now : Nat) (e : String) (bid : Nat)
        (coach : Coach) (booking : Booking),
      db.coaches.find? (fun c => decide (c.email = e)) = some coach →
      db.bookings.find? (fun b => decide (b.id = bid)) = some booking →
      booking.coachId = coach.id →
      booking.status ≠ BookingStatus.FINISHED →
      booking.status ≠ BookingStatus.CANCELLED →
      booking.bookingDate ≤ now →
      (finishBooking db now e UserRole.COACH bid).isOk = true) ∧
    (∀ (db : DB) (now : Nat) (e : String) (r : UserRole) (bid : Nat) (booking : Booking),
      db.bookings.find? (fun b => decide (b.id = bid)) = some booking →
      booking.status = BookingStatus.FINISHED ∨
        booking.status = BookingStatus.CANCELLED →
      (finishBooking db now e r bid).isOk = false) ∧
    (∀ (db : DB) (now : Nat) (e : String) (bid : Nat)
        (coach : Coach) (booking : Booking),
      db.coaches.find? (fun c => decide (c.email = e)) = some coach →
      db.bookings.find? (fun b => decide (b.id = bid)) = some booking →
      booking.coachId = coach.id →
      booking.status ≠ BookingStatus.FINISHED →
      booking.status ≠ BookingStatus.CANCELLED →
      now < booking.bookingDate →
      finishBooking db now e UserRole.COACH bid = .error .cannotFinishFuture) ∧
    (∀ (db : DB) (now : Nat) (e : String) (r : UserRole) (bid : Nat),
      r ≠ UserRole.COACH →
      finishBooking db now e r bid = .error .onlyCoachCanFinish) := by
  refine ⟨?_, ?_, ?_, ?_, ?_⟩
  · intro db now e r bid db' h
    rw [finishBooking] at h
    by_cases hr : r = UserRole.COACH
    swap
    · rw [if_pos hr] at h; exact Except.noConfusion h
    rw [if_neg (not_not_intro hr)] at h
    cases hco : db.coaches.find? (fun c => decide (c.email = e)) with
    | none => simp only [hco] at h; exact Except.noConfusion h
    | some coach =>
    simp only [hco] at h
    cases hbk : db.bookings.find? (fun b => decide (b.id = bid)) with
    | none => simp only [hbk] at h; exact Except.noConfusion h
    | some booking =>
    simp only [hbk] at h
    by_cases hown : booking.coachId = coach.id
    swap
    · rw [if_pos hown] at h; exact Except.noConfusion h
    rw [if_neg (not_not_intro hown)] at h
    by_cases hf : booking.status = BookingStatus.FINISHED
    · rw [if_pos hf] at h; exact Except.noConfusion h
    rw [if_neg hf] at h
    by_cases hc : booking.status = BookingStatus.CANCELLED
    · rw [if_pos hc] at h; exact Except.noConfusion h
    rw [if_neg hc] at h
    by_cases hfut : now < booking.bookingDate
    · rw [if_pos hfut] at h; exact Except.noConfusion h
    rw [if_neg hfut] at h
    rw [Except.ok.injEq] at h
    subst h
    refine ⟨hr, by simp [updateBookingStatus], ?_⟩
    intro booking' hbk'
    obtain rfl := Option.some.inj hbk'
    refine ⟨hf, hc, by omega, ?_⟩
    intro coach' hco'
    obtain rfl := Option.some.inj hco'
    exact hown
  · intro db now e bid coach booking hco hbk hown hf hc hdate
    rw [finishBooking]
    rw [if_neg (not_not_intro rfl)]
    simp only [hco, hbk]
    rw [if_neg (not_not_intro hown), if_neg hf, if_neg hc,
      if_neg (by omega : ¬ now < booking.bookingDate)]
    rfl
  · intro db now e r bid booking hbk hstat
    rw [finishBooking]
    by_cases hr : r = UserRole.COACH
    swap
    · rw [if_pos hr]; rfl
    rw [if_neg (not_not_intro hr)]
    cases hco : db.coaches.find? (fun c => decide (c.email = e)) with
    | none => rfl
    | some coach =>
    simp only [hbk]
    by_cases hown : booking.coachId = coach.id
    swap
    · rw [if_pos hown]; rfl
    rw [if_neg (not_not_intro hown)]
    rcases hstat with hf | hc
    · rw [if_pos hf]; rfl
    · by_cases hf : booking.status = BookingStatus.FINISHED
      · rw [if_pos hf]; rfl
      · rw [if_neg hf, if_pos hc]; rfl
  · intro db now e bid coach booking hco hbk hown hf hc hfut
    rw [finishBooking]
    rw [if_neg (not_not_intro rfl)]
    simp only [hco, hbk]
    rw [if_neg (not_not_intro hown), if_neg hf, if_neg hc, if_pos hfut]
  · intro db now e r bid hr
    rw [finishBooking, if_pos hr]

/-- Concrete state for finish scenarios: booking 30 in RESCHEDULE_REQUEST
status on slot 4, with a booking date in the past relative to `now = 20000`. -/
def dbC6 : DB :=
  { athletes := [⟨1, "a@x"⟩]
    coaches := [⟨2, "c@x"⟩]
    availabilities := [⟨3, 2, 14400⟩]
    timeSlots := [⟨4, 3, 15000, 15060, true, SlotStatus.ACTIVE⟩]
    bookings := [⟨30, 1, 2, some 4, 15000, BookingStatus.RESCHEDULE_REQUEST, some 29, "p"⟩]
    nextBookingId := 31 }

/-- Counterexample for C6 as stated: `finishBooking` also succeeds on a
booking whose status is RESCHEDULE_REQUEST (not in the claimed exact set
{CONFIRMED, RESCHEDULED_ACCEPTED}), once its date has passed. -/
theorem claim_C6_counterexample :
    dbC6.bookings.find? (fun b => decide (b.id = 30)) =
      some ⟨30, 1, 2, some 4, 15000, BookingStatus.RESCHEDULE_REQUEST, some 29, "p"⟩ ∧
    (finishBooking dbC6 20000 "c@x" UserRole.COACH 30).isOk = true := by
  exact ⟨rfl, rfl⟩

/-- Witness for C6 (amended): finishing a past-dated booking succeeds for
the owning coach, finishing it again fails, a future-dated one fails with
the cannot-finish-future error, and an athlete caller is rejected. -/
theorem claim_C6_finish_booking_witness :
    (finishBooking dbC6 20000 "c@x" UserRole.COACH 30).isOk = true ∧
    (finishBooking (updateBookingStatus dbC6 30 BookingStatus.FINISHED)
        20000 "c@x" UserRole.COACH 30).isOk = false ∧
    finishBooking dbC6 14000 "c@x" UserRole.COACH 30 = .error .cannotFinishFuture ∧
    finishBooking dbC6 20000 "a@x" UserRole.ATHLETE 30 = .error .onlyCoachCanFinish := by
  refine ⟨?_, ?_, ?_, ?_⟩
  · exact claim_C6_finish_booking.2.1 dbC6 20000 "c@x" 30 ⟨2, "c@x"⟩
      ⟨30, 1, 2, some 4, 15000, BookingStatus.RESCHEDULE_REQUEST, some 29, "p"⟩
      rfl rfl rfl (by decide) (by decide) (by decide)
  · exact claim_C6_finish_booking.2.2.1 (updateBookingStatus dbC6 30 BookingStatus.FINISHED)
      20000 "c@x" UserRole.COACH 30
      ⟨30, 1, 2, some 4, 15000, BookingStatus.FINISHED, some 29, "p"⟩
      rfl (Or.inl rfl)
  · exact claim_C6_finish_booking.2.2.2.1 dbC6 14000 "c@x" 30 ⟨2, "c@x"⟩
      ⟨30, 1, 2, some 4, 15000, BookingStatus.RESCHEDULE_REQUEST, some 29, "p"⟩
      rfl rfl rfl (by decide) (by decide) (by decide)
  · exact claim_C6_finish_booking.2.2.2.2 dbC6 20000 "a@x" UserRole.ATHLETE 30 (by decide)

/-- A per-id row update commutes with looking the row up by id. -/
theorem find?_timeSlot_update (l : List TimeSlot) (sid : Nat)
    (f : TimeSlot → TimeSlot) (hf : ∀ s, (f s).id = s.id) :
    (l.map (fun s => if s.id = sid then f s else s)).find?
        (fun s => decide (s.id = sid)) =
      (l.find? (fun s => decide (s.id = sid))).map f := by
  induction l with
  | nil => rfl
  | cons a t ih =>
    by_cases ha : a.id = sid
    · simp [List.find?_cons, ha, hf]
    · simp [List.find?_cons, ha, ih]

/-- Two successive per-id status updates seen through a lookup by that id:
only the second status write survives. -/
theorem find?_double_update (l : List TimeSlot) (sid : Nat) (st₁ st₂ : SlotStatus) :
    ((l.map (fun s => if s.id = sid then { s with status := st₁ } else s)).map
      (fun s => if s.id = sid then { s with status := st₂ } else s)).find?
        (fun s => decide (s.id = sid)) =
      (l.find? (fun s => decide (s.id = sid))).map
        (fun s => { s with status := st₂ }) := by
  rw [find?_timeSlot_update
      (l.map (fun s => if s.id = sid then { s with status := st₁ } else s))
      sid (fun s => { s with status := st₂ }) (fun s => rfl)]
  rw [find?_timeSlot_update l sid (fun s => { s with status := st₁ }) (fun s => rfl)]
  rw [Option.map_map]
  rfl

/-- The successful branch of `toggleSlotStatus`, in closed form: with the
lookups fixed, an authorized toggle of a slot that is not booked-and-active
flips exactly that slot's status and returns the flipped row. -/
theorem toggleSlotStatus_ok (db : DB) (ce : String) (sid : Nat)
    (coach : Coach) (slot : TimeSlot) (avail : CoachAvailability)
    (hco : db.coaches.find? (fun c => decide (c.email = ce)) = some coach)
    (hslot : db.timeSlots.find? (fun s => decide (s.id = sid)) = some slot)
    (havail : db.availabilities.find?
      (fun a => decide (a.id = slot.availabilityId)) = some avail)
    (hown : avail.coachId = coach.id)
    (hguard : (slot.isBooked && decide (slot.status = SlotStatus.ACTIVE)) = false) :
    ScheduleService.toggleSlotStatus db ce sid =
      .ok ({ db with timeSlots := db.timeSlots.map (fun s =>
              if s.id = sid then
                { s with status := if slot.status = SlotStatus.ACTIVE then
                    SlotStatus.INACTIVE else SlotStatus.ACTIVE }
              else s) },
           { slot with status := if slot.status = SlotStatus.ACTIVE then
               SlotStatus.INACTIVE else SlotStatus.ACTIVE }) := by
  rw [ScheduleService.toggleSlotStatus]
  simp only [hco, hslot, havail]
  rw [if_neg (not_not_intro hown)]
  rw [if_neg (by simp [hguard])]

/-- Claim C9: `toggleSlotStatus` rejects a coach who does not own the
slot's parent availability, rejects deactivating a slot that is both booked
and ACTIVE, otherwise flips exactly that slot's status between ACTIVE and
INACTIVE leaving all other fields and rows unchanged; toggling an unbooked
slot twice restores its original status. -/
theorem claim_C9_toggle_slot :
    (∀ (db : DB) (ce : String) (sid : Nat) (coach : Coach) (slot : TimeSlot)
        (avail : CoachAvailability),
      db.coaches.find? (fun c => decide (c.email = ce)) = some coach →
      db.timeSlots.find? (fun s => decide (s.id = sid)) = some slot →
      db.availabilities.find?
        (fun a => decide (a.id = slot.availabilityId)) = some avail →
      avail.coachId ≠ coach.id →
      ScheduleService.toggleSlotStatus db ce sid = .error .notYourSlot) ∧
    (∀ (db : DB) (ce : String) (sid : Nat) (coach : Coach) (slot : TimeSlot)
        (avail : CoachAvailability),
      db.coaches.find? (fun c => decide (c.email = ce)) = some coach →
      db.timeSlots.find? (fun s => decide (s.id = sid)) = some slot →
      db.availabilities.find?
        (fun a => decide (a.id = slot.availabilityId)) = some avail →
      avail.coachId = coach.id →
      slot.isBooked = true → slot.status = SlotStatus.ACTIVE →
      ScheduleService.toggleSlotStatus db ce sid = .error .bookedSlot) ∧
    (∀ (db : DB) (ce : String) (sid : Nat) (coach : Coach) (slot : TimeSlot)
        (avail : CoachAvailability),
      db.coaches.find? (fun c => decide (c.email = ce)) = some coach →
      db.timeSlots.find? (fun s => decide (s.id = sid)) = some slot →
      db.availabilities.find?
        (fun a => decide (a.id = slot.availabilityId)) = some avail →
      avail.coachId = coach.id →
      (slot.isBooked && decide (slot.status = SlotStatus.ACTIVE)) = false →
      ScheduleService.toggleSlotStatus db ce sid =
        .ok ({ db with timeSlots := db.timeSlots.map (fun s =>
                if s.id = sid then
                  { s with status := if slot.status = SlotStatus.ACTIVE then
                      SlotStatus.INACTIVE else SlotStatus.ACTIVE }
                else s) },
             { slot with status := if slot.status = SlotStatus.ACTIVE then
                 SlotStatus.INACTIVE else SlotStatus.ACTIVE })) ∧
    (∀ (db : DB) (ce : String) (sid : Nat) (coach : Coach) (slot : TimeSlot)
        (avail : CoachAvailability),
      db.coaches.find? (fun c => decide (c.email = ce)) = some coach →
      db.timeSlots.find? (fun s => decide (s.id = sid)) = some slot →
      db.availabilities.find?
        (fun a => decide (a.id = slot.availabilityId)) = some avail →
      avail.coachId = coach.id →
      slot.isBooked = false →
      (ScheduleService.toggleSlotStatus db ce sid).isOk = true ∧
      ∀ db₁ s₁, ScheduleService.toggleSlotStatus db ce sid = .ok (db₁, s₁) →
        (ScheduleService.toggleSlotStatus db₁ ce sid).isOk = true ∧
        ∀ db₂ s₂, ScheduleService.toggleSlotStatus db₁ ce sid = .ok (db₂, s₂) →
          s₂.status = slot.status ∧
          db₂.timeSlots.find? (fun s => decide (s.id = sid)) = some slot) := by
  refine ⟨?_, ?_, ?_, ?_⟩
  · intro db ce sid coach slot avail hco hslot havail hne
    rw [ScheduleService.toggleSlotStatus]
    simp only [hco, hslot, havail]
    rw [if_pos hne]
  · intro db ce sid coach slot avail hco hslot havail hown hbk hact
    rw [ScheduleService.toggleSlotStatus]
    simp only [hco, hslot, havail]
    rw [if_neg (not_not_intro hown)]
    rw [if_pos (by simp [hbk, hact])]
  · intro db ce sid coach slot avail hco hslot havail hown hguard
    exact toggleSlotStatus_ok db ce sid coach slot avail hco hslot havail hown hguard
  · intro db ce sid coach slot avail hco hslot havail hown hbk
    have hguard1 : (slot.isBooked && decide (slot.status = SlotStatus.ACTIVE)) = false := by
      simp [hbk]
    have h1 := toggleSlotStatus_ok db ce sid coach slot avail hco hslot havail hown hguard1
    refine ⟨by rw [h1]; rfl, ?_⟩
    intro db₁ s₁ h1'
    rw [h1, Except.ok.injEq, Prod.mk.injEq] at h1'
    obtain ⟨hdb₁, hs₁⟩ := h1'
    subst hdb₁
    subst hs₁
    have hslot₁ : ({ db with timeSlots := db.timeSlots.map (fun s =>
          if s.id = sid then
            { s with status := if slot.status = SlotStatus.ACTIVE then
                SlotStatus.INACTIVE else SlotStatus.ACTIVE }
          else s) } : DB).timeSlots.find? (fun s => decide (s.id = sid)) =
        some { slot with status := if slot.status = SlotStatus.ACTIVE then
            SlotStatus.INACTIVE else SlotStatus.ACTIVE } := by
      show (db.timeSlots.map _).find? _ = _
      rw [find?_timeSlot_update db.timeSlots sid
        (fun s => { s with status := if slot.status = SlotStatus.ACTIVE then
            SlotStatus.INACTIVE else SlotStatus.ACTIVE })
        (fun s => rfl)]
      rw [hslot]
      rfl
    have hguard2 : (({ slot with status := if slot.status = SlotStatus.ACTIVE then
        SlotStatus.INACTIVE else SlotStatus.ACTIVE } : TimeSlot).isBooked &&
        decide (({ slot with status := if slot.status = SlotStatus.ACTIVE then
          SlotStatus.INACTIVE else SlotStatus.ACTIVE } : TimeSlot).status =
            SlotStatus.ACTIVE)) = false := by
      simp [hbk]
    have h2 := toggleSlotStatus_ok
      ({ db with timeSlots := db.timeSlots.map (fun s =>
          if s.id = sid then
            { s with status := if slot.status = SlotStatus.ACTIVE then
                SlotStatus.INACTIVE else SlotStatus.ACTIVE }
          else s) })
      ce sid coach
      ({ slot with status := if slot.status = SlotStatus.ACTIVE then
          SlotStatus.INACTIVE else SlotStatus.ACTIVE })
      avail hco hslot₁ havail hown hguard2
    refine ⟨by rw [h2]; rfl, ?_⟩
    intro db₂ s₂ h2'
    rw [h2, Except.ok.injEq, Prod.mk.injEq] at h2'
    obtain ⟨hdb₂, hs₂⟩ := h2'
    subst hdb₂
    subst hs₂
    constructor
    · cases hstat : slot.status <;> rfl
    · show ((db.timeSlots.map _).map _).find? _ = _
      rw [find?_double_update db.timeSlots sid, hslot]
      cases hstat : slot.status with
      | ACTIVE =>
        show some { slot with status := SlotStatus.ACTIVE } = some slot
        rw [← hstat]
      | INACTIVE =>
        show some { slot with status := SlotStatus.INACTIVE } = some slot
        rw [← hstat]

/-- Concrete schedule state: coach 2 owns availability 3 with unbooked
ACTIVE slot 4 and booked ACTIVE slot 8; coach 9 owns nothing. -/
def dbC9 : DB :=
  { athletes := []
    coaches := [⟨2, "c@x"⟩, ⟨9, "o@x"⟩]
    availabilities := [⟨3, 2, 14400⟩]
    timeSlots := [⟨4, 3, 15000, 15060, false, SlotStatus.ACTIVE⟩,
                  ⟨8, 3, 15060, 15120, true, SlotStatus.ACTIVE⟩]
    bookings := []
    nextBookingId := 1 }

/-- `dbC9` after one toggle of slot 4 (now INACTIVE). -/
def dbC9a : DB :=
  { dbC9 with
      timeSlots := [⟨4, 3, 15000, 15060, false, SlotStatus.INACTIVE⟩,
                    ⟨8, 3, 15060, 15120, true, SlotStatus.ACTIVE⟩] }

/-- `dbC9a` after a second toggle of slot 4 (back to ACTIVE). -/
def dbC9b : DB :=
  { dbC9 with
      timeSlots := [⟨4, 3, 15000, 15060, false, SlotStatus.ACTIVE⟩,
                    ⟨8, 3, 15060, 15120, true, SlotStatus.ACTIVE⟩] }

/-- Witness for C9: the non-owning coach is rejected, deactivating the
booked ACTIVE slot 8 is rejected, toggling the unbooked slot 4 flips only
its status, and toggling it twice restores the original row. -/
theorem claim_C9_toggle_slot_witness :
    ScheduleService.toggleSlotStatus dbC9 "o@x" 4 = .error .notYourSlot ∧
    ScheduleService.toggleSlotStatus dbC9 "c@x" 8 = .error .bookedSlot ∧
    ScheduleService.toggleSlotStatus dbC9 "c@x" 4 =
      .ok (dbC9a, ⟨4, 3, 15000, 15060, false, SlotStatus.INACTIVE⟩) ∧
    dbC9b.timeSlots.find? (fun s => decide (s.id = 4)) =
      some ⟨4, 3, 15000, 15060, false, SlotStatus.ACTIVE⟩ := by
  have hforbidden := claim_C9_toggle_slot.1 dbC9 "o@x" 4 ⟨9, "o@x"⟩
    ⟨4, 3, 15000, 15060, false, SlotStatus.ACTIVE⟩ ⟨3, 2, 14400⟩
    rfl rfl rfl (by decide)
  have hbooked := claim_C9_toggle_slot.2.1 dbC9 "c@x" 8 ⟨2, "c@x"⟩
    ⟨8, 3, 15060, 15120, true, SlotStatus.ACTIVE⟩ ⟨3, 2, 14400⟩
    rfl rfl rfl rfl rfl rfl
  have hflip := claim_C9_toggle_slot.2.2.1 dbC9 "c@x" 4 ⟨2, "c@x"⟩
    ⟨4, 3, 15000, 15060, false, SlotStatus.ACTIVE⟩ ⟨3, 2, 14400⟩
    rfl rfl rfl rfl (by decide)
  have hdouble := claim_C9_toggle_slot.2.2.2 dbC9 "c@x" 4 ⟨2, "c@x"⟩
    ⟨4, 3, 15000, 15060, false, SlotStatus.ACTIVE⟩ ⟨3, 2, 14400⟩
    rfl rfl rfl rfl rfl
  have hstep := (hdouble.2 dbC9a ⟨4, 3, 15000, 15060, false, SlotStatus.INACTIVE⟩ rfl).2
    dbC9b ⟨4, 3, 15000, 15060, false, SlotStatus.ACTIVE⟩ rfl
  exact ⟨hforbidden, hbooked, hflip.trans (by rfl), hstep.2⟩

/-- Helper: the booked-and-active rejection branch of `toggleSlotStatus`. -/
theorem toggleSlotStatus_err_bookedSlot (db : DB) (ce : String) (sid : Nat)
    (coach : Coach) (slot : TimeSlot) (avail : CoachAvailability)
    (hco : db.coaches.find? (fun c => decide (c.email = ce)) = some coach)
    (hslot : db.timeSlots.find? (fun s => decide (s.id = sid)) = some slot)
    (havail : db.availabilities.find?
      (fun a => decide (a.id = slot.availabilityId)) = some avail)
    (hown : avail.coachId = coach.id)
    (hbk : slot.isBooked = true) (hact : slot.status = SlotStatus.ACTIVE) :
    ScheduleService.toggleSlotStatus db ce sid = .error .bookedSlot := by
  rw [ScheduleService.toggleSlotStatus]
  simp only [hco, hslot, havail]
  rw [if_neg (not_not_intro hown)]
  rw [if_pos (by simp [hbk, hact])]

/-- Helper: a successful `finishBooking` returns exactly the state with the
one booking's status rewritten to FINISHED. -/
theorem finishBooking_ok_eq (db : DB) (now : Nat) (e : String) (r : UserRole)
    (bid : Nat) (db' : DB) (h : finishBooking db now e r bid = .ok db') :
    db' = updateBookingStatus db bid BookingStatus.FINISHED := by
  rw [finishBooking] at h
  by_cases hr : r = UserRole.COACH
  swap
  · rw [if_pos hr] at h; exact Except.noConfusion h
  rw [if_neg (not_not_intro hr)] at h
  cases hco : db.coaches.find? (fun c => decide (c.email = e)) with
  | none => simp only [hco] at h; exact Except.noConfusion h
  | some coach =>
  simp only [hco] at h
  cases hbk : db.bookings.find? (fun b => decide (b.id = bid)) with
  | none => simp only [hbk] at h; exact Except.noConfusion h
  | some booking =>
  simp only [hbk] at h
  by_cases hown : booking.coachId = coach.id
  swap
  · rw [if_pos hown] at h; exact Except.noConfusion h
  rw [if_neg (not_not_intro hown)] at h
  by_cases hf : booking.status = BookingStatus.FINISHED
  · rw [if_pos hf] at h; exact Except.noConfusion h
  rw [if_neg hf] at h
  by_cases hc : booking.status = BookingStatus.CANCELLED
  · rw [if_pos hc] at h; exact Except.noConfusion h
  rw [if_neg hc] at h
  by_cases hfut : now < booking.bookingDate
  · rw [if_pos hfut] at h; exact Except.noConfusion h
  rw [if_neg hfut] at h
  exact (Except.ok.inj h).symm

/-- Claim C10: a successful `finishBooking` rewrites only that booking's
status to FINISHED — the time-slot table (and every other table) is
untouched, so the slot keeps `isBooked = true`; consequently, as long as the
slot is ACTIVE, `toggleSlotStatus` on it still fails with the
booked-slot rejection even though the finished booking no longer occupies it. -/
theorem claim_C10_finish_frame :
    (∀ (db : DB) (now : Nat) (e : String) (r : UserRole) (bid : Nat) (db' : DB),
      finishBooking db now e r bid = .ok db' →
      db'.timeSlots = db.timeSlots ∧
      db'.athletes = db.athletes ∧
      db'.coaches = db.coaches ∧
      db'.availabilities = db.availabilities ∧
      db'.bookings = db.bookings.map (fun b =>
        if b.id = bid then { b with status := BookingStatus.FINISHED } else b) ∧
      ∀ b2 ∈ db.bookings, b2.id ≠ bid → b2 ∈ db'.bookings) ∧
    (∀ (db : DB) (now : Nat) (e : String) (r : UserRole) (bid : Nat) (db' : DB)
        (ce : String) (sid : Nat) (coach : Coach) (slot : TimeSlot)
        (avail : CoachAvailability),
      finishBooking db now e r bid = .ok db' →
      db.coaches.find? (fun c => decide (c.email = ce)) = some coach →
      db.timeSlots.find? (fun s => decide (s.id = sid)) = some slot →
      db.availabilities.find?
        (fun a => decide (a.id = slot.availabilityId)) = some avail →
      avail.coachId = coach.id →
      slot.isBooked = true → slot.status = SlotStatus.ACTIVE →
      ScheduleService.toggleSlotStatus db' ce sid = .error .bookedSlot) := by
  constructor
  · intro db now e r bid db' h
    obtain rfl := finishBooking_ok_eq db now e r bid db' h
    refine ⟨rfl, rfl, rfl, rfl, by simp [updateBookingStatus], ?_⟩
    intro b2 hb2 hne
    simp only [updateBookingStatus, List.mem_map]
    exact ⟨b2, hb2, by simp [hne]⟩
  · intro db now e r bid db' ce sid coach slot avail h hco hslot havail hown hbk hact
    obtain rfl := finishBooking_ok_eq db now e r bid db' h
    exact toggleSlotStatus_err_bookedSlot
      (updateBookingStatus db bid BookingStatus.FINISHED) ce sid coach slot avail
      hco hslot havail hown hbk hact

/-- `dbC6` after the coach finishes booking 30. -/
def dbC6fin : DB :=
  { dbC6 with
      bookings := [⟨30, 1, 2, some 4, 15000, BookingStatus.FINISHED, some 29, "p"⟩] }

/-- Witness for C10: finishing booking 30 leaves the slot table unchanged
(slot 4 still `isBooked = true`), and toggling slot 4 in the post-state
still fails with the booked-slot rejection. -/
theorem claim_C10_finish_frame_witness :
    dbC6fin.timeSlots = dbC6.timeSlots ∧
    ScheduleService.toggleSlotStatus dbC6fin "c@x" 4 = .error .bookedSlot := by
  have h1 := claim_C10_finish_frame.1 dbC6 20000 "c@x" UserRole.COACH 30 dbC6fin rfl
  have h2 := claim_C10_finish_frame.2 dbC6 20000 "c@x" UserRole.COACH 30 dbC6fin
    "c@x" 4 ⟨2, "c@x"⟩ ⟨4, 3, 15000, 15060, true, SlotStatus.ACTIVE⟩ ⟨3, 2, 14400⟩
    rfl rfl rfl rfl rfl rfl rfl
  exact ⟨h1.1, h2⟩

/-- The claimed slot-flag invariant, as a decidable check: every slot
referenced by some active-status booking has `isBooked = true`. -/
def isBookedConsistent (db : DB) : Bool :=
  db.timeSlots.all fun s =>
    !(db.bookings.any fun b =>
        decide (b.timeSlotId = some s.id) && isActiveStatus b.status) || s.isBooked

/-- Claim C4 (amended): only `createIntoDb` and `cancelBooking` maintain
the `isBooked` flag — create sets the booked slot's flag to true and cancel
releases the cancelled booking's slot — while `finishBooking`,
`requestReschedule` and `respondToReschedule` leave the slot table entirely
unchanged, even though a successful `requestReschedule` adds an
active-status booking referencing its new slot. -/
theorem claim_C4_isBooked_flag :
    (∀ (now : Nat) (db : DB) (inp : CreateBookingInput) (db' : DB) (b : Booking),
      createIntoDb now db inp = .ok (db', b) →
      db'.timeSlots = db.timeSlots.map (fun s =>
        if s.id = inp.timeSlotId then { s with isBooked := true } else s)) ∧
    (∀ (db : DB) (e : String) (r : UserRole) (bid : Nat) (db' : DB) (booking : Booking),
      cancelBooking db e r bid = .ok db' →
      db.bookings.find? (fun b => decide (b.id = bid)) = some booking →
      db'.timeSlots = (match booking.timeSlotId with
        | some sid => db.timeSlots.map (fun s =>
            if s.id = sid then { s with isBooked := false } else s)
        | none => db.timeSlots)) ∧
    (∀ (db : DB) (now : Nat) (e : String) (r : UserRole) (bid : Nat) (db' : DB),
      finishBooking db now e r bid = .ok db' → db'.timeSlots = db.timeSlots) ∧
    (∀ (db : DB) (e : String) (r : UserRole) (p : RescheduleInput)
        (db' : DB) (nb : Booking),
      requestReschedule db e r p = .ok (db', nb) →
      nb.status = BookingStatus.RESCHEDULE_REQUEST ∧
      nb.timeSlotId = some p.newTimeSlotId ∧
      nb ∈ db'.bookings ∧ db'.timeSlots = db.timeSlots) ∧
    (∀ (db : DB) (e : String) (r : UserRole) (pid : Nat) (d : RespondStatus) (db' : DB),
      respondToReschedule db e r pid d = .ok db' → db'.timeSlots = db.timeSlots) := by
  refine ⟨?_, ?_, ?_, ?_, ?_⟩
  · intro now db inp db' b h
    rw [createIntoDb] at h
    cases hath : db.athletes.find? (fun a => decide (a.email = inp.athleteEmail)) with
    | none => simp only [hath] at h; exact Except.noConfusion h
    | some athlete =>
    simp only [hath] at h
    cases hslot : db.timeSlots.find? (fun s => decide (s.id = inp.timeSlotId)) with
    | none => simp only [hslot] at h; exact Except.noConfusion h
    | some timeSlot =>
    simp only [hslot] at h
    cases havail : db.availabilities.find?
        (fun a => decide (a.id = timeSlot.availabilityId)) with
    | none => simp only [havail] at h; exact Except.noConfusion h
    | some availability =>
    simp only [havail] at h
    by_cases hco : availability.coachId = inp.coachId
    swap
    · rw [if_pos hco] at h; exact Except.noConfusion h
    rw [if_neg (not_not_intro hco)] at h
    by_cases hst : timeSlot.status = SlotStatus.ACTIVE
    swap
    · rw [if_pos hst] at h; exact Except.noConfusion h
    rw [if_neg (not_not_intro hst)] at h
    by_cases hdm : dayStart inp.bookingDate = dayStart availability.slotDate
    swap
    · rw [if_pos hdm] at h; exact Except.noConfusion h
    rw [if_neg (not_not_intro hdm)] at h
    by_cases hpast : dayStart inp.bookingDate < dayStart now
    · rw [if_pos hpast] at h; exact Except.noConfusion h
    rw [if_neg hpast] at h
    by_cases hcf : (db.bookings.find?
        (dayConflictPred inp.timeSlotId (dayStart inp.bookingDate))).isSome = true
    · rw [if_pos hcf] at h; exact Except.noConfusion h
    rw [if_neg hcf] at h
    cases hcoach : db.coaches.find? (fun c => decide (c.id = inp.coachId)) with
    | none => simp only [hcoach] at h; exact Except.noConfusion h
    | some coach =>
    simp only [hcoach] at h
    rw [Except.ok.injEq, Prod.mk.injEq] at h
    obtain ⟨hdb', _⟩ := h
    subst hdb'
    simp [setSlotBooked]
  · intro db e r bid db' booking h hbk'
    rw [cancelBooking] at h
    cases hu : findUser db r e with
    | none => simp only [hu] at h; exact Except.noConfusion h
    | some userId =>
    simp only [hu, hbk'] at h
    by_cases hauth : ¬(r = UserRole.ATHLETE ∧ booking.athleteId = userId) ∧
        ¬(r = UserRole.COACH ∧ booking.coachId = userId)
    · rw [if_pos hauth] at h; exact Except.noConfusion h
    rw [if_neg hauth] at h
    by_cases hc : booking.status = BookingStatus.CANCELLED
    · rw [if_pos hc] at h; exact Except.noConfusion h
    rw [if_neg hc] at h
    by_cases hf : booking.status = BookingStatus.FINISHED
    · rw [if_pos hf] at h; exact Except.noConfusion h
    rw [if_neg hf] at h
    cases hts : booking.timeSlotId with
    | none =>
      simp only [hts] at h
      rw [Except.ok.injEq] at h
      subst h
      simp [updateBookingStatus]
    | some sid =>
      simp only [hts] at h
      rw [Except.ok.injEq] at h
      subst h
      simp [setSlotBooked, updateBookingStatus]
  · intro db now e r bid db' h
    obtain rfl := finishBooking_ok_eq db now e r bid db' h
    rfl
  · intro db e r p db' nb h
    rw [requestReschedule] at h
    cases hu : findUser db r e with
    | none => simp only [hu] at h; exact Except.noConfusion h
    | some userId =>
    simp only [hu] at h
    cases horig : db.bookings.find? (fun b => decide (b.id = p.bookingId)) with
    | none => simp only [horig] at h; exact Except.noConfusion h
    | some originalBooking =>
    simp only [horig] at h
    by_cases hauth : ¬(r = UserRole.ATHLETE ∧ originalBooking.athleteId = userId) ∧
        ¬(r = UserRole.COACH ∧ originalBooking.coachId = userId)
    · rw [if_pos hauth] at h; exact Except.noConfusion h
    rw [if_neg hauth] at h
    by_cases hpend : originalBooking.status = BookingStatus.RESCHEDULE_REQUEST
    · rw [if_pos hpend] at h; exact Except.noConfusion h
    rw [if_neg hpend] at h
    cases hslot : db.timeSlots.find? (fun s => decide (s.id = p.newTimeSlotId)) with
    | none => simp only [hslot] at h; exact Except.noConfusion h
    | some newTimeSlot =>
    simp only [hslot] at h
    cases havail : db.availabilities.find?
        (fun a => decide (a.id = newTimeSlot.availabilityId)) with
    | none => simp only [havail] at h; exact Except.noConfusion h
    | some availability =>
    simp only [havail] at h
    by_cases hco : availability.coachId = originalBooking.coachId
    swap
    · rw [if_pos hco] at h; exact Except.noConfusion h
    rw [if_neg (not_not_intro hco)] at h
    by_cases hdm : dayStart availability.slotDate = dayStart p.newBookingDate
    swap
    · rw [if_pos hdm] at h; exact Except.noConfusion h
    rw [if_neg (not_not_intro hdm)] at h
    by_cases hcf : (db.bookings.find?
        (exactConflictPred p.newTimeSlotId p.newBookingDate)).isSome = true
    · rw [if_pos hcf] at h; exact Except.noConfusion h
    rw [if_neg hcf] at h
    rw [Except.ok.injEq, Prod.mk.injEq] at h
    obtain ⟨hdb', hnb⟩ := h
    subst hdb'
    subst hnb
    exact ⟨rfl, rfl, by simp, rfl⟩
  · intro db e r pid d db' h
    rw [respondToReschedule] at h
    cases hu : findUser db r e with
    | none => simp only [hu] at h; exact Except.noConfusion h
    | some userId =>
    simp only [hu] at h
    cases hrq : db.bookings.find? (fun b => decide (b.id = pid)) with
    | none => simp only [hrq] at h; exact Except.noConfusion h
    | some rq =>
    simp only [hrq] at h
    by_cases hst : rq.status = BookingStatus.RESCHEDULE_REQUEST
    swap
    · rw [if_pos hst] at h; exact Except.noConfusion h
    rw [if_neg (not_not_intro hst)] at h
    by_cases hauth : ¬(r = UserRole.ATHLETE ∧ rq.athleteId = userId) ∧
        ¬(r = UserRole.COACH ∧ rq.coachId = userId)
    · rw [if_pos hauth] at h; exact Except.noConfusion h
    rw [if_neg hauth] at h
    cases hfrom : rq.rescheduleFromId with
    | none => simp only [hfrom] at h; exact Except.noConfusion h
    | some origId =>
    simp only [hfrom] at h
    cases horig : db.bookings.find? (fun b => decide (b.id = origId)) with
    | none => simp only [horig] at h; exact Except.noConfusion h
    | some orig =>
    simp only [horig] at h
    cases d with
    | RESCHEDULED_ACCEPTED =>
      rw [Except.ok.injEq] at h
      subst h
      rfl
    | RESCHEDULED_CANCELED =>
      rw [Except.ok.injEq] at h
      subst h
      rfl

/-- Concrete state satisfying the slot-flag invariant: CONFIRMED booking 10
occupies slot 4 (`isBooked = true`); slot 7 is free. -/
def dbC4 : DB :=
  { athletes := [⟨1, "a@x"⟩]
    coaches := [⟨2, "c@x"⟩]
    availabilities := [⟨3, 2, 14400⟩, ⟨5, 2, 15840⟩]
    timeSlots := [⟨4, 3, 15000, 15060, true, SlotStatus.ACTIVE⟩,
                  ⟨7, 5, 16500, 16560, false, SlotStatus.ACTIVE⟩]
    bookings := [⟨10, 1, 2, some 4, 15000, BookingStatus.CONFIRMED, none, "o"⟩]
    nextBookingId := 11 }

/-- The proposal row created by rescheduling booking 10 onto slot 7. -/
def nbC4 : Booking :=
  ⟨11, 1, 2, some 7, 16500, BookingStatus.RESCHEDULE_REQUEST, some 10,
    "Reschedule requested by athlete"⟩

/-- Post-state of that reschedule request. -/
def dbC4req : DB :=
  { dbC4 with
      bookings := [⟨10, 1, 2, some 4, 15000, BookingStatus.CONFIRMED, none, "o"⟩, nbC4]
      nextBookingId := 12 }

/-- Counterexample for C4 as stated: `dbC4` satisfies the slot-flag
invariant, a `requestReschedule` succeeds on it, and the post-state
violates the invariant — the new RESCHEDULE_REQUEST booking references
slot 7 whose `isBooked` is still false. -/
theorem claim_C4_counterexample :
    isBookedConsistent dbC4 = true ∧
    (match requestReschedule dbC4 "a@x" UserRole.ATHLETE ⟨10, 7, 16500, none⟩ with
      | .ok (db', _) => isBookedConsistent db'
      | .error _ => true) = false := by
  exact ⟨rfl, rfl⟩

/-- Witness for C4 (amended): on `dbC4` the reschedule request adds an
active proposal on slot 7 without touching the slot table; accepting a
proposal also leaves slots untouched; create and cancel do update the flag. -/
theorem claim_C4_isBooked_flag_witness :
    nbC4 ∈ dbC4req.bookings ∧
    nbC4.timeSlotId = some 7 ∧
    dbC4req.timeSlots = dbC4.timeSlots ∧
    dbC2acc.timeSlots = dbC2.timeSlots ∧
    dbC1ok.timeSlots = dbC1.timeSlots.map
      (fun s => if s.id = 4 then { s with isBooked := true } else s) ∧
    dbC5ok.timeSlots = dbC5.timeSlots.map
      (fun s => if s.id = 4 then { s with isBooked := false } else s) := by
  have h4 := claim_C4_isBooked_flag.2.2.2.1 dbC4 "a@x" UserRole.ATHLETE
    ⟨10, 7, 16500, none⟩ dbC4req nbC4 rfl
  have h5 := claim_C4_isBooked_flag.2.2.2.2 dbC2 "a@x" UserRole.ATHLETE 11
    .RESCHEDULED_ACCEPTED dbC2acc rfl
  have h1 := claim_C4_isBooked_flag.1 14400 dbC1 inpC1 dbC1ok bC1 rfl
  have h2 := claim_C4_isBooked_flag.2.1 dbC5 "a@x" UserRole.ATHLETE 10 dbC5ok
    ⟨10, 1, 2, some 4, 15000, BookingStatus.CONFIRMED, none, "o"⟩ rfl rfl
  exact ⟨h4.2.2.1, h4.2.1, h4.2.2.2, h5, h1, h2⟩

end BookingTheorems
